import Mathlib

/-!
Verification development for the CoFAB repository: a shallow embedding of its
four Python scripts (CoFAB/trellis_wrapper.py, shap-e/shap_e_generate.py,
shap-e/shap_e_test.py, shap-e/shap_e_test_with_render.py).

Each script is modelled as a function from its command line and an abstract
execution world (which library calls succeed, whether files exist) to an
Outcome: a termination status plus a trace of observable events (prints,
environment writes, directory creation, pipeline calls, file writes).
Machine behaviour that belongs to the wrapped ML libraries (model loading,
sampling, rendering) is abstracted to success flags and opaque payloads; the
control flow, argument handling, message printing, exit codes and file writes
are translated line by line from the source.
-/

/-- A filesystem path split as (directory, filename).  Paths built by the
scripts via os.path.join(d, f) are modelled directly as the pair; a raw path
string (as passed to open) is split at its last slash by pathOfString. -/
structure FPath where
  dir : String
  file : String
deriving DecidableEq, Repr

/-- Model of os.path.join(d, f) for the literal filenames used by the
scripts (f never contains a slash and is never absolute). -/
def osPathJoin (d f : String) : FPath := ⟨d, f⟩

/-- Split a character list at its last slash: some (before, after) when a
slash occurs, none otherwise. -/
def splitLastSlash : List Char → Option (List Char × List Char)
  | [] => none
  | c :: r =>
    match splitLastSlash r with
    | some (d, f) => some (c :: d, f)
    | none => if c = '/' then some ([], r) else none

/-- Split a raw path string at its last slash, as the filesystem sees an
argument of open(): "results/out.obj" becomes (dir "results", file "out.obj"),
a bare filename has dir "". -/
def pathOfString (s : String) : FPath :=
  match splitLastSlash s.data with
  | none => ⟨"", s⟩
  | some (d, f) => ⟨String.mk d, String.mk f⟩

/-- Model of a PIL image: its mode string (such as "RGB" or "RGBA") and an
abstract pixel payload that conversion preserves. -/
structure PILImage where
  mode : String
  data : Nat
deriving DecidableEq, Repr

/-- Model of PIL Image.convert: the returned image has the requested mode and
the same underlying picture. -/
def PILImage.convert (img : PILImage) (m : String) : PILImage := ⟨m, img.data⟩

/-- File formats the scripts can serialize.  mp4 is listed because the spec
names it; whether any script ever produces it is settled by the theorems. -/
inductive FileFmt where
  | obj
  | ply
  | glb
  | gif
  | mp4
deriving DecidableEq, Repr

/-- Observable events of a script run, in program order.
out s        : print(...) to standard output (dynamic tails of messages are
               elided; s is the static prefix of the printed line).
printExcStderr : traceback.print_exc(), which writes the stack trace to
               sys.stderr (its default file argument).
usageToStderr : the argparse usage/error message, written to stderr before
               argparse calls sys.exit(2).
setEnv k v   : os.environ[k] = v.
makedirs d   : os.makedirs(d, exist_ok=True).
loadPipeline n : TrellisImageTo3DPipeline.from_pretrained(n) (plus .cuda()).
loadModel n  : shap_e load_model / load_config for component n.
openImage p  : PIL Image.open(args.input).
runPipeline  : pipeline.run(image, seed=..., sparse structure and slat
               sampler steps and cfg strengths), the single TRELLIS inference.
sampleLatents b g ts k : sample_latents(batch_size=b, guidance_scale=g,
               model_kwargs=dict(texts=ts), karras_steps=k, ...); the
               remaining keyword arguments are the same constants at every
               call site and are elided.
decodeImages i : decode_latent_images for latent i.
decodeMesh i : decode_latent_mesh(...).tri_mesh() for latent i.
openW p      : open(p, "w") or open(p, "wb") for writing (the write attempt).
exportFile f p : a completed export/write of a file in format f at path p.
saveGif p frames d : PIL Image.save(p, save_all=True, append_images=...,
               duration=d, loop=0) writing all the given frames.
cudaEmptyCache : torch.cuda.empty_cache(). -/
inductive Event where
  | out (s : String)
  | printExcStderr
  | usageToStderr
  | setEnv (key val : String)
  | makedirs (d : String)
  | loadPipeline (name : String)
  | loadModel (name : String)
  | openImage (p : String)
  | runPipeline (seed ss_steps slat_steps : Int) (ss_guidance slat_guidance : Rat)
  | sampleLatents (batch : Nat) (guidance : Rat) (texts : List String) (karras_steps : Int)
  | decodeImages (i : Nat)
  | decodeMesh (i : Nat)
  | openW (p : FPath)
  | exportFile (fmt : FileFmt) (p : FPath)
  | saveGif (p : FPath) (frames : List PILImage) (duration : Nat)
  | cudaEmptyCache
deriving DecidableEq, Repr

/-- How a run ends.
normal      : main returns, the interpreter exits with status 0.
exited c    : sys.exit(c) was called (SystemExit is not an Exception, so the
              except Exception handlers do not intercept it).
uncaught e  : an exception of kind e propagated out of main; the interpreter
              prints its traceback to stderr and exits with status 1. -/
inductive Termination where
  | normal
  | exited (code : Nat)
  | uncaught (exc : String)
deriving DecidableEq, Repr

/-- The process exit status each termination produces. -/
def Termination.exitCode : Termination → Nat
  | .normal => 0
  | .exited c => c
  | .uncaught _ => 1

/-- Result of one script run: how it ended, and the trace of events. -/
structure Outcome where
  term : Termination
  events : List Event
deriving DecidableEq, Repr

/-- The environment-variable writes of a trace, in order. -/
def setEnvs : List Event → List (String × String)
  | [] => []
  | Event.setEnv k v :: r => (k, v) :: setEnvs r
  | _ :: r => setEnvs r

/-- The formats of the files a trace writes, in order. -/
def writtenFmts : List Event → List FileFmt
  | [] => []
  | Event.exportFile f _ :: r => f :: writtenFmts r
  | Event.saveGif _ _ _ :: r => FileFmt.gif :: writtenFmts r
  | _ :: r => writtenFmts r

/-- True when, scanning the trace in order, every write or write attempt goes
into a directory that an earlier makedirs event of the same trace created. -/
def dirsReady (created : List String) : List Event → Bool
  | [] => true
  | Event.makedirs d :: r => dirsReady (d :: created) r
  | Event.openW p :: r => if p.dir ∈ created then dirsReady created r else false
  | Event.exportFile _ p :: r => if p.dir ∈ created then dirsReady created r else false
  | Event.saveGif p _ _ :: r => if p.dir ∈ created then dirsReady created r else false
  | _ :: r => dirsReady created r

/-- True when the trace contains a makedirs call. -/
def hasMakedirs : List Event → Bool
  | [] => false
  | Event.makedirs _ :: _ => true
  | _ :: r => hasMakedirs r

/-- True when the trace loads no pipeline or model, opens no input image,
and neither attempts nor completes any file write. -/
def noPipelineLoadOrOutput (l : List Event) : Bool :=
  l.all fun e =>
    match e with
    | Event.loadPipeline _ => false
    | Event.loadModel _ => false
    | Event.openImage _ => false
    | Event.openW _ => false
    | Event.exportFile _ _ => false
    | Event.saveGif _ _ _ => false
    | _ => true

/-- The sample_latents calls of a trace, in order. -/
def sampleCalls : List Event → List Event
  | [] => []
  | Event.sampleLatents b g ts k :: r => Event.sampleLatents b g ts k :: sampleCalls r
  | _ :: r => sampleCalls r

theorem setEnvs_append (l m : List Event) :
    setEnvs (l ++ m) = setEnvs l ++ setEnvs m := by
  induction l with
  | nil => rfl
  | cons e r ih => cases e <;> simp [setEnvs, ih]

theorem writtenFmts_append (l m : List Event) :
    writtenFmts (l ++ m) = writtenFmts l ++ writtenFmts m := by
  induction l with
  | nil => rfl
  | cons e r ih => cases e <;> simp [writtenFmts, ih]

theorem sampleCalls_append (l m : List Event) :
    sampleCalls (l ++ m) = sampleCalls l ++ sampleCalls m := by
  induction l with
  | nil => rfl
  | cons e r ih => cases e <;> simp [sampleCalls, ih]

/-!
trellis_wrapper.py (CoFAB/trellis_wrapper.py).

Module level: the script inserts its own directory into sys.path (no
observable effect modelled) and sets os.environ["SPCONV_ALGO"] = "native";
the ATTN_BACKEND assignment in the source is commented out.  main() wraps its
whole body in try/except Exception; sys.exit raises SystemExit, which that
handler does not catch.
-/

/-- The argparse command line of trellis_wrapper.py: each flag either absent
or present with a value of its declared type.  (A present flag whose text
fails the int/float conversion also makes argparse exit 2, like a missing
required flag; that case is folded into parse failure and not represented
separately.) -/
structure TrellisCmd where
  mode : Option String
  input : Option String
  output_dir : Option String
  seed : Option Int
  ss_steps : Option Int
  ss_guidance : Option Rat
  slat_steps : Option Int
  slat_guidance : Option Rat
deriving DecidableEq, Repr

/-- The parsed arguments (argparse namespace) of trellis_wrapper.py. -/
structure TrellisArgs where
  mode : String
  input : String
  output_dir : String
  seed : Int
  ss_steps : Int
  ss_guidance : Rat
  slat_steps : Int
  slat_guidance : Rat
deriving DecidableEq, Repr

/-- Model of parser.parse_args(): input and output_dir are required; mode
defaults to "image" and must be one of the two declared choices; the sampler
flags take the declared defaults (seed 0, ss_steps 12, ss_guidance 7.5,
slat_steps 12, slat_guidance 3.0).  none means argparse prints its error to
stderr and calls sys.exit(2). -/
def parseTrellis (c : TrellisCmd) : Option TrellisArgs :=
  match c.input, c.output_dir with
  | some inp, some odir =>
    let m := c.mode.getD "image"
    if m = "image" ∨ m = "text" then
      some ⟨m, inp, odir, c.seed.getD 0, c.ss_steps.getD 12, c.ss_guidance.getD (15 / 2),
            c.slat_steps.getD 12, c.slat_guidance.getD 3⟩
    else none
  | _, _ => none

/-- The execution world of one trellis_wrapper.py run: which library calls
succeed and which files exist.  Each false flag means the corresponding call
raises an exception (ImportError for importOk, a generic Exception
otherwise). -/
structure TrellisWorld where
  importOk : Bool
  cudaAvailable : Bool
  loadOk : Bool
  inputExists : Bool
  openOk : Bool
  runOk : Bool
  libsOk : Bool
  glbOk : Bool
  objOk : Bool
deriving DecidableEq, Repr

/-- The four diagnostic prints at the top of main (their dynamic tails
elided). -/
def dbgPre : List Event :=
  [Event.out "Python executable:", Event.out "Python version:",
   Event.out "Current working directory:", Event.out "PYTHONPATH:"]

/-- What the outer except Exception handler prints: the ERROR message to
stdout, the stack trace to stderr. -/
def unexpectedErr : List Event :=
  [Event.out "ERROR: An unexpected error occurred:", Event.printExcStderr]

/-- What the inner except ImportError handler prints (the four enumerated
possible solutions elided into one line).  When the TRELLIS import fails
after torch imported, the torch diagnostics preceding the failure are also
elided; no claim depends on them. -/
def importFailMsgs : List Event :=
  [Event.out "ERROR: Failed to import TRELLIS modules:", Event.printExcStderr,
   Event.out "Possible solutions:"]

/-- The torch diagnostics printed on a successful import. -/
def torchInfo (cuda : Bool) : List Event :=
  [Event.out "PyTorch version:", Event.out "CUDA available:"] ++
    (if cuda then [Event.out "CUDA device:"] else [])

/-- What the except block around the export section prints. -/
def saveFail : List Event :=
  [Event.out "ERROR: Failed to save outputs:", Event.printExcStderr]

def trellisRepo : String := "JeffreyXiang/TRELLIS-image-large"

/-- Trace prefix after the makedirs and the first line of the import block. -/
def trellisPre1 (args : TrellisArgs) : List Event :=
  dbgPre ++ [Event.makedirs args.output_dir,
             Event.out "Attempting to import TRELLIS modules..."]

/-- Trace prefix after a successful import of the TRELLIS modules. -/
def trellisPre2 (args : TrellisArgs) (w : TrellisWorld) : List Event :=
  trellisPre1 args ++ torchInfo w.cudaAvailable ++
    [Event.out "TRELLIS modules imported successfully!"]

/-- Trace prefix after from_pretrained and .cuda() succeeded. -/
def trellisPre3 (args : TrellisArgs) (w : TrellisWorld) : List Event :=
  trellisPre2 args w ++ [Event.loadPipeline trellisRepo]

/-- Trace prefix after Image.open(args.input) succeeded. -/
def trellisPre4 (args : TrellisArgs) (w : TrellisWorld) : List Event :=
  trellisPre3 args w ++ [Event.openImage args.input]

/-- The one pipeline.run call, with the parsed seed, sampler steps and
guidance strengths. -/
def trellisRunEvent (args : TrellisArgs) : Event :=
  Event.runPipeline args.seed args.ss_steps args.slat_steps args.ss_guidance args.slat_guidance

/-- Trace prefix after pipeline.run returned. -/
def trellisPre5 (args : TrellisArgs) (w : TrellisWorld) : List Event :=
  trellisPre4 args w ++ [trellisRunEvent args]

/-- The export section of trellis_wrapper.py, reached after pipeline.run
returned: import imageio/trimesh/numpy (outside the inner try, so a failure
there lands in the outer handler), then inside try: to_glb + glb.export,
then the trimesh OBJ export.  The source also builds ply_path
(gaussian.ply) and preview_path (preview.mp4) here but never writes either
file; the only exports are model.glb and model.obj.  On full success the
code after the try/except runs: import torch; torch.cuda.empty_cache(); and
main returns (exit status 0). -/
def trellisSave (args : TrellisArgs) (w : TrellisWorld) : Outcome :=
  if w.libsOk = false then ⟨Termination.exited 1, trellisPre5 args w ++ unexpectedErr⟩
  else if w.glbOk = false then ⟨Termination.exited 1, trellisPre5 args w ++ saveFail⟩
  else if w.objOk = false then
    ⟨Termination.exited 1,
     trellisPre5 args w ++ [Event.exportFile FileFmt.glb (osPathJoin args.output_dir "model.glb")]
       ++ saveFail⟩
  else
    ⟨Termination.normal,
     trellisPre5 args w ++
       [Event.exportFile FileFmt.glb (osPathJoin args.output_dir "model.glb"),
        Event.exportFile FileFmt.obj (osPathJoin args.output_dir "model.obj"),
        Event.cudaEmptyCache]⟩

/-- The body of main() in trellis_wrapper.py.  os.makedirs(args.output_dir,
exist_ok=True) raises FileNotFoundError on the empty string, which the outer
handler catches (exit 1); otherwise the import block runs, then the
image/text branch: image mode loads the pipeline, checks
os.path.exists(args.input), opens the image, runs the pipeline and saves;
text mode prints the not-implemented error and exits 1 before loading or
opening anything. -/
def trellisMain (c : TrellisCmd) (w : TrellisWorld) : Outcome :=
  match parseTrellis c with
  | none => ⟨Termination.exited 2, dbgPre ++ [Event.usageToStderr]⟩
  | some args =>
    if args.output_dir = "" then ⟨Termination.exited 1, dbgPre ++ unexpectedErr⟩
    else if w.importOk = false then ⟨Termination.exited 1, trellisPre1 args ++ importFailMsgs⟩
    else if args.mode = "image" then
      if w.loadOk = false then
        ⟨Termination.exited 1, trellisPre2 args w ++ [Event.loadPipeline trellisRepo] ++ unexpectedErr⟩
      else if w.inputExists = false then
        ⟨Termination.exited 1, trellisPre3 args w ++ [Event.out "ERROR: Input image not found:"]⟩
      else if w.openOk = false then
        ⟨Termination.exited 1, trellisPre3 args w ++ [Event.openImage args.input] ++ unexpectedErr⟩
      else if w.runOk = false then
        ⟨Termination.exited 1, trellisPre4 args w ++ [trellisRunEvent args] ++ unexpectedErr⟩
      else trellisSave args w
    else
      ⟨Termination.exited 1,
       trellisPre2 args w ++ [Event.out "ERROR: Text-to-3D mode is not yet implemented"]⟩

/-- A whole run of trellis_wrapper.py: the module-level environment write,
then main(). -/
def trellisScript (c : TrellisCmd) (w : TrellisWorld) : Outcome :=
  let m := trellisMain c w
  ⟨m.term, Event.setEnv "SPCONV_ALGO" "native" :: m.events⟩

/-!
shap_e_generate.py (shap-e/shap_e_generate.py).

main() has no try/except: any exception propagates to the interpreter.  With
fewer than four arguments it prints a usage line to stdout and calls
sys.exit(1).  Otherwise argv[1] is the prompt, float(argv[2]) the guidance
scale, int(argv[3]) the step count, argv[4] the output path; a failing
conversion raises an uncaught ValueError.  The Python float()/int()
conversions are not reimplemented: the model is parameterized over them as
partial functions, none meaning the conversion raises.
-/

/-- The three shap_e model loads shared by the scripts: load_model for
transmitter and text300M, then diffusion_from_config(load_config). -/
def shapELoads : List Event :=
  [Event.loadModel "transmitter", Event.loadModel "text300M", Event.loadModel "diffusion"]

/-- The execution world of a shap_e_generate.py run.  A false flag means the
corresponding library call raises; outDirExists says whether the parent
directory of the output path exists, so whether open(output_obj, "w")
succeeds (open never creates directories). -/
structure ShapGenWorld where
  loadOk : Bool
  sampleOk : Bool
  decodeOk : Bool
  outDirExists : Bool
deriving DecidableEq, Repr

/-- shap_e_generate.py main().  On a failing load the partial trace of the
loads before the raising one is elided (no claim depends on it); the
sample_latents call passes batch_size=1, the parsed guidance scale,
texts=[prompt] and karras_steps=the parsed step count. -/
def shapEGenerate (pyFloat : String → Option Rat) (pyInt : String → Option Int)
    (argv : List String) (w : ShapGenWorld) : Outcome :=
  if argv.length < 5 then
    ⟨Termination.exited 1,
     [Event.out "Usage: python shap_e_generate.py <prompt> <guidance_scale> <steps> <output_obj>"]⟩
  else
    let prompt := argv.getD 1 ""
    match pyFloat (argv.getD 2 "") with
    | none => ⟨Termination.uncaught "ValueError", []⟩
    | some guidance_scale =>
      match pyInt (argv.getD 3 "") with
      | none => ⟨Termination.uncaught "ValueError", []⟩
      | some steps =>
        let output_obj := argv.getD 4 ""
        if w.loadOk = false then ⟨Termination.uncaught "Exception", []⟩
        else if w.sampleOk = false then
          ⟨Termination.uncaught "Exception",
           shapELoads ++ [Event.sampleLatents 1 guidance_scale [prompt] steps]⟩
        else
          let pre := shapELoads ++ [Event.sampleLatents 1 guidance_scale [prompt] steps]
          if w.decodeOk = false then ⟨Termination.uncaught "Exception", pre ++ [Event.decodeMesh 0]⟩
          else
            let p := pathOfString output_obj
            if w.outDirExists = false then
              ⟨Termination.uncaught "FileNotFoundError", pre ++ [Event.decodeMesh 0, Event.openW p]⟩
            else
              ⟨Termination.normal,
               pre ++ [Event.decodeMesh 0, Event.openW p, Event.exportFile FileFmt.obj p,
                       Event.out "Shap-E generation done, saved =>"]⟩

/-!
shap_e_test.py (shap-e/shap_e_test.py).

No command-line arguments and no try/except.  Fixed parameters: batch_size=1,
guidance_scale=12.0, prompt "a mango shape watering can", karras_steps=72.
After sampling it creates the meshes directory and, for each latent, decodes
a mesh and writes example_mesh_i.ply (binary) then example_mesh_i.obj.
-/

structure ShapTestWorld where
  loadOk : Bool
  sampleOk : Bool
  decodeOk : Bool
deriving DecidableEq, Repr

def shapETestPrompt : String := "a mango shape watering can"

/-- One iteration of the export loop of shap_e_test.py. -/
def shapETestIter (i : Nat) : List Event :=
  [Event.decodeMesh i,
   Event.openW (osPathJoin "meshes" ("example_mesh_" ++ toString i ++ ".ply")),
   Event.exportFile FileFmt.ply (osPathJoin "meshes" ("example_mesh_" ++ toString i ++ ".ply")),
   Event.out "[INFO] Saved PLY =>",
   Event.openW (osPathJoin "meshes" ("example_mesh_" ++ toString i ++ ".obj")),
   Event.exportFile FileFmt.obj (osPathJoin "meshes" ("example_mesh_" ++ toString i ++ ".obj")),
   Event.out "[INFO] Saved OBJ =>"]

/-- shap_e_test.py main().  batch_size is the literal 1 of the source, so the
loop runs once with i = 0; a decode failure raises uncaught inside the loop
before that iteration writes anything. -/
def shapETest (w : ShapTestWorld) : Outcome :=
  let pre0 := [Event.out "Using device:"]
  if w.loadOk = false then ⟨Termination.uncaught "Exception", pre0⟩
  else
    let pre1 := pre0 ++ shapELoads
    if w.sampleOk = false then
      ⟨Termination.uncaught "Exception",
       pre1 ++ [Event.sampleLatents 1 12 [shapETestPrompt] 72]⟩
    else
      let pre2 := pre1 ++ [Event.sampleLatents 1 12 [shapETestPrompt] 72, Event.makedirs "meshes"]
      if w.decodeOk = false then ⟨Termination.uncaught "Exception", pre2 ++ [Event.decodeMesh 0]⟩
      else ⟨Termination.normal, pre2 ++ (List.range 1).flatMap shapETestIter⟩

/-!
shap_e_test_with_render.py (shap-e/shap_e_test_with_render.py).

save_images_as_gif forces every frame to RGB mode, then calls
rgb_images[0].save(filename, save_all=True, append_images=rgb_images[1:],
duration=duration, loop=0).  On an empty list rgb_images[0] raises
IndexError before any file is touched; neither the function nor its caller
catches it.  main() has fixed parameters batch_size=2, guidance_scale=15.0,
prompt "a beer bottle", karras_steps=48, creates renders and meshes
directories after sampling, and for each latent renders a GIF then writes a
PLY and an OBJ mesh.
-/

/-- The per-frame conversion of save_images_as_gif: frames not already in
RGB mode are converted, the rest are appended unchanged. -/
def rgbFrame (img : PILImage) : PILImage :=
  if img.mode ≠ "RGB" then img.convert "RGB" else img

/-- save_images_as_gif(images, filename, duration): Except.error models an
exception raised inside the function (nothing written), Except.ok the single
PIL save call writing all frames. -/
def save_images_as_gif (images : List PILImage) (filename : FPath) (duration : Nat) :
    Except String Event :=
  let rgb_images := images.map rgbFrame
  match rgb_images with
  | [] => Except.error "IndexError"
  | first :: rest => Except.ok (Event.saveGif filename (first :: rest) duration)

/-- The execution world of a shap_e_test_with_render.py run; images i is
what decode_latent_images returns for latent i. -/
structure ShapRenderWorld where
  loadOk : Bool
  sampleOk : Bool
  decodeImagesOk : Bool
  decodeMeshOk : Bool
  images : Nat → List PILImage

def shapERenderPrompt : String := "a beer bottle"

/-- The render-and-export loop of shap_e_test_with_render.py over the list
of latent indices: render the views, write the GIF (an empty frame list
makes save_images_as_gif raise an uncaught IndexError), then decode and
write the PLY and OBJ meshes. -/
def renderIters (w : ShapRenderWorld) : List Nat → List Event → Outcome
  | [], acc => ⟨Termination.normal, acc⟩
  | i :: rest, acc =>
    if w.decodeImagesOk = false then
      ⟨Termination.uncaught "Exception", acc ++ [Event.decodeImages i]⟩
    else
      match save_images_as_gif (w.images i)
          (osPathJoin "renders" ("latent_" ++ toString i ++ ".gif")) 120 with
      | Except.error e => ⟨Termination.uncaught e, acc ++ [Event.decodeImages i]⟩
      | Except.ok ev =>
        if w.decodeMeshOk = false then
          ⟨Termination.uncaught "Exception",
           acc ++ [Event.decodeImages i, ev, Event.out "[INFO] Saved GIF =>", Event.decodeMesh i]⟩
        else
          renderIters w rest
            (acc ++
             [Event.decodeImages i, ev, Event.out "[INFO] Saved GIF =>", Event.decodeMesh i,
              Event.openW (osPathJoin "meshes" ("example_mesh_" ++ toString i ++ ".ply")),
              Event.exportFile FileFmt.ply
                (osPathJoin "meshes" ("example_mesh_" ++ toString i ++ ".ply")),
              Event.openW (osPathJoin "meshes" ("example_mesh_" ++ toString i ++ ".obj")),
              Event.exportFile FileFmt.obj
                (osPathJoin "meshes" ("example_mesh_" ++ toString i ++ ".obj")),
              Event.out "[INFO] Saved Mesh =>"])

/-- shap_e_test_with_render.py main().  batch_size is the literal 2 of the
source; texts is [prompt] * batch_size. -/
def shapERender (w : ShapRenderWorld) : Outcome :=
  let pre0 := [Event.out "Using device:"]
  if w.loadOk = false then ⟨Termination.uncaught "Exception", pre0⟩
  else
    let pre1 := pre0 ++ shapELoads
    if w.sampleOk = false then
      ⟨Termination.uncaught "Exception",
       pre1 ++ [Event.sampleLatents 2 15 [shapERenderPrompt, shapERenderPrompt] 48]⟩
    else
      renderIters w (List.range 2)
        (pre1 ++ [Event.sampleLatents 2 15 [shapERenderPrompt, shapERenderPrompt] 48,
                  Event.makedirs "renders", Event.makedirs "meshes"])

/-!
Concrete fixtures used by witnesses and counterexamples.
-/

/-- A text-mode command line with all required flags present. -/
def cmdText : TrellisCmd := ⟨some "text", some "a red chair", some "outdir", none, none, none, none, none⟩

/-- An image-mode command line (mode left to its default). -/
def cmdImage : TrellisCmd := ⟨none, some "input.png", some "outdir", none, none, none, none, none⟩

/-- A world in which every library call succeeds and every file exists. -/
def twOk : TrellisWorld := ⟨true, true, true, true, true, true, true, true, true⟩

/-- A world in which the TRELLIS import fails and everything else succeeds. -/
def twNoImport : TrellisWorld := ⟨false, true, true, true, true, true, true, true, true⟩

def sgwOk : ShapGenWorld := ⟨true, true, true, true⟩

/-- The world of a shap_e_generate.py run whose output directory is absent. -/
def sgwNoDir : ShapGenWorld := ⟨true, true, true, false⟩

def stwOk : ShapTestWorld := ⟨true, true, true⟩

/-- A render world in which every call succeeds and each latent renders to
one RGBA and one RGB frame. -/
def srwOk : ShapRenderWorld := ⟨true, true, true, true, fun _ => [⟨"RGBA", 7⟩, ⟨"RGB", 8⟩]⟩

/-- A concrete stand-in for Python float() defined on the strings the
fixtures use. -/
def pyFloatStub : String → Option Rat := fun s => if s = "15.0" then some 15 else none

/-- A concrete stand-in for Python int() defined on the strings the
fixtures use. -/
def pyIntStub : String → Option Int := fun s => if s = "64" then some 64 else none

/-- A full command line for shap_e_generate.py whose output path has a
parent directory. -/
def genArgv : List String := ["shap_e_generate.py", "a chair", "15.0", "64", "results/out.obj"]

/-- Every run of trellis_wrapper.py follows one of the twelve control paths
of main(); each disjunct records the conditions selecting the path and the
resulting outcome. -/
theorem trellisMain_cases (c : TrellisCmd) (w : TrellisWorld) :
    (parseTrellis c = none ∧
      trellisMain c w = ⟨Termination.exited 2, dbgPre ++ [Event.usageToStderr]⟩) ∨
    ∃ args, parseTrellis c = some args ∧
      ((args.output_dir = "" ∧
          trellisMain c w = ⟨Termination.exited 1, dbgPre ++ unexpectedErr⟩) ∨
       (args.output_dir ≠ "" ∧ w.importOk = false ∧
          trellisMain c w = ⟨Termination.exited 1, trellisPre1 args ++ importFailMsgs⟩) ∨
       (args.output_dir ≠ "" ∧ w.importOk = true ∧ args.mode ≠ "image" ∧
          trellisMain c w = ⟨Termination.exited 1,
            trellisPre2 args w ++ [Event.out "ERROR: Text-to-3D mode is not yet implemented"]⟩) ∨
       (args.output_dir ≠ "" ∧ w.importOk = true ∧ args.mode = "image" ∧ w.loadOk = false ∧
          trellisMain c w = ⟨Termination.exited 1,
            trellisPre2 args w ++ [Event.loadPipeline trellisRepo] ++ unexpectedErr⟩) ∨
       (args.output_dir ≠ "" ∧ w.importOk = true ∧ args.mode = "image" ∧ w.loadOk = true ∧
          w.inputExists = false ∧
          trellisMain c w = ⟨Termination.exited 1,
            trellisPre3 args w ++ [Event.out "ERROR: Input image not found:"]⟩) ∨
       (args.output_dir ≠ "" ∧ w.importOk = true ∧ args.mode = "image" ∧ w.loadOk = true ∧
          w.inputExists = true ∧ w.openOk = false ∧
          trellisMain c w = ⟨Termination.exited 1,
            trellisPre3 args w ++ [Event.openImage args.input] ++ unexpectedErr⟩) ∨
       (args.output_dir ≠ "" ∧ w.importOk = true ∧ args.mode = "image" ∧ w.loadOk = true ∧
          w.inputExists = true ∧ w.openOk = true ∧ w.runOk = false ∧
          trellisMain c w = ⟨Termination.exited 1,
            trellisPre4 args w ++ [trellisRunEvent args] ++ unexpectedErr⟩) ∨
       (args.output_dir ≠ "" ∧ w.importOk = true ∧ args.mode = "image" ∧ w.loadOk = true ∧
          w.inputExists = true ∧ w.openOk = true ∧ w.runOk = true ∧ w.libsOk = false ∧
          trellisMain c w = ⟨Termination.exited 1, trellisPre5 args w ++ unexpectedErr⟩) ∨
       (args.output_dir ≠ "" ∧ w.importOk = true ∧ args.mode = "image" ∧ w.loadOk = true ∧
          w.inputExists = true ∧ w.openOk = true ∧ w.runOk = true ∧ w.libsOk = true ∧
          w.glbOk = false ∧
          trellisMain c w = ⟨Termination.exited 1, trellisPre5 args w ++ saveFail⟩) ∨
       (args.output_dir ≠ "" ∧ w.importOk = true ∧ args.mode = "image" ∧ w.loadOk = true ∧
          w.inputExists = true ∧ w.openOk = true ∧ w.runOk = true ∧ w.libsOk = true ∧
          w.glbOk = true ∧ w.objOk = false ∧
          trellisMain c w = ⟨Termination.exited 1,
            trellisPre5 args w ++
              [Event.exportFile FileFmt.glb (osPathJoin args.output_dir "model.glb")] ++ saveFail⟩) ∨
       (args.output_dir ≠ "" ∧ w.importOk = true ∧ args.mode = "image" ∧ w.loadOk = true ∧
          w.inputExists = true ∧ w.openOk = true ∧ w.runOk = true ∧ w.libsOk = true ∧
          w.glbOk = true ∧ w.objOk = true ∧
          trellisMain c w = ⟨Termination.normal,
            trellisPre5 args w ++
              [Event.exportFile FileFmt.glb (osPathJoin args.output_dir "model.glb"),
               Event.exportFile FileFmt.obj (osPathJoin args.output_dir "model.obj"),
               Event.cudaEmptyCache]⟩)) := by
  cases hp : parseTrellis c with
  | none => exact Or.inl ⟨rfl, by simp [trellisMain, hp]⟩
  | some args =>
    refine Or.inr ⟨args, rfl, ?_⟩
    by_cases h1 : args.output_dir = ""
    · exact Or.inl ⟨h1, by simp [trellisMain, hp, h1]⟩
    by_cases h2 : w.importOk = false
    · exact Or.inr (Or.inl ⟨h1, h2, by simp [trellisMain, hp, h1, h2]⟩)
    rw [Bool.not_eq_false] at h2
    by_cases h3 : args.mode = "image"
    · by_cases h4 : w.loadOk = false
      · refine Or.inr (Or.inr (Or.inr (Or.inl ⟨h1, h2, h3, h4, ?_⟩)))
        simp [trellisMain, hp, h1, h2, h3, h4]
      rw [Bool.not_eq_false] at h4
      by_cases h5 : w.inputExists = false
      · refine Or.inr (Or.inr (Or.inr (Or.inr (Or.inl ⟨h1, h2, h3, h4, h5, ?_⟩))))
        simp [trellisMain, hp, h1, h2, h3, h4, h5]
      rw [Bool.not_eq_false] at h5
      by_cases h6 : w.openOk = false
      · refine Or.inr (Or.inr (Or.inr (Or.inr (Or.inr (Or.inl ⟨h1, h2, h3, h4, h5, h6, ?_⟩)))))
        simp [trellisMain, hp, h1, h2, h3, h4, h5, h6]
      rw [Bool.not_eq_false] at h6
      by_cases h7 : w.runOk = false
      · refine Or.inr (Or.inr (Or.inr (Or.inr (Or.inr (Or.inr
          (Or.inl ⟨h1, h2, h3, h4, h5, h6, h7, ?_⟩))))))
        simp [trellisMain, hp, h1, h2, h3, h4, h5, h6, h7]
      rw [Bool.not_eq_false] at h7
      by_cases h8 : w.libsOk = false
      · refine Or.inr (Or.inr (Or.inr (Or.inr (Or.inr (Or.inr (Or.inr
          (Or.inl ⟨h1, h2, h3, h4, h5, h6, h7, h8, ?_⟩)))))))
        simp [trellisMain, trellisSave, hp, h1, h2, h3, h4, h5, h6, h7, h8]
      rw [Bool.not_eq_false] at h8
      by_cases h9 : w.glbOk = false
      · refine Or.inr (Or.inr (Or.inr (Or.inr (Or.inr (Or.inr (Or.inr (Or.inr
          (Or.inl ⟨h1, h2, h3, h4, h5, h6, h7, h8, h9, ?_⟩))))))))
        simp [trellisMain, trellisSave, hp, h1, h2, h3, h4, h5, h6, h7, h8, h9]
      rw [Bool.not_eq_false] at h9
      by_cases h10 : w.objOk = false
      · refine Or.inr (Or.inr (Or.inr (Or.inr (Or.inr (Or.inr (Or.inr (Or.inr (Or.inr
          (Or.inl ⟨h1, h2, h3, h4, h5, h6, h7, h8, h9, h10, ?_⟩)))))))))
        simp [trellisMain, trellisSave, hp, h1, h2, h3, h4, h5, h6, h7, h8, h9, h10]
      rw [Bool.not_eq_false] at h10
      refine Or.inr (Or.inr (Or.inr (Or.inr (Or.inr (Or.inr (Or.inr (Or.inr (Or.inr
        (Or.inr ⟨h1, h2, h3, h4, h5, h6, h7, h8, h9, h10, ?_⟩)))))))))
      simp [trellisMain, trellisSave, hp, h1, h2, h3, h4, h5, h6, h7, h8, h9, h10]
    · refine Or.inr (Or.inr (Or.inl ⟨h1, h2, h3, ?_⟩))
      simp [trellisMain, hp, h1, h2, h3]

/-!
Generic lemmas about the trace observers, and evaluations of them on the
trace segments of trellis_wrapper.py.
-/

/-- True when the trace attempts or completes any file write. -/
def hasWrites : List Event → Bool
  | [] => false
  | Event.openW _ :: _ => true
  | Event.exportFile _ _ :: _ => true
  | Event.saveGif _ _ _ :: _ => true
  | _ :: r => hasWrites r

/-- The created-directory accumulator of dirsReady after a trace. -/
def mkdirsAcc : List Event → List String → List String
  | [], cs => cs
  | Event.makedirs d :: r, cs => mkdirsAcc r (d :: cs)
  | _ :: r, cs => mkdirsAcc r cs

theorem hasWrites_append (l m : List Event) :
    hasWrites (l ++ m) = (hasWrites l || hasWrites m) := by
  induction l with
  | nil => rfl
  | cons e r ih => cases e <;> simp [hasWrites, ih]

theorem dirsReady_of_no_writes (l : List Event) (h : hasWrites l = false) (created : List String) :
    dirsReady created l = true := by
  induction l generalizing created with
  | nil => rfl
  | cons e r ih => cases e <;> simp_all [hasWrites, dirsReady]

theorem dirsReady_append_of_no_writes (l : List Event) (h : hasWrites l = false)
    (created : List String) (m : List Event) :
    dirsReady created (l ++ m) = dirsReady (mkdirsAcc l created) m := by
  induction l generalizing created with
  | nil => rfl
  | cons e r ih => cases e <;> simp_all [hasWrites, dirsReady, mkdirsAcc]

theorem hasMakedirs_append (l m : List Event) :
    hasMakedirs (l ++ m) = (hasMakedirs l || hasMakedirs m) := by
  induction l with
  | nil => rfl
  | cons e r ih => cases e <;> simp [hasMakedirs, ih]

theorem noPipelineLoadOrOutput_append (l m : List Event) :
    noPipelineLoadOrOutput (l ++ m) =
      (noPipelineLoadOrOutput l && noPipelineLoadOrOutput m) := by
  simp [noPipelineLoadOrOutput, List.all_append]

theorem setEnvs_torchInfo (b : Bool) : setEnvs (torchInfo b) = [] := by
  cases b <;> rfl

theorem writtenFmts_torchInfo (b : Bool) : writtenFmts (torchInfo b) = [] := by
  cases b <;> rfl

theorem hasWrites_torchInfo (b : Bool) : hasWrites (torchInfo b) = false := by
  cases b <;> rfl

theorem mkdirsAcc_torchInfo (b : Bool) (cs : List String) :
    mkdirsAcc (torchInfo b) cs = cs := by
  cases b <;> rfl

theorem noPipelineLoadOrOutput_torchInfo (b : Bool) :
    noPipelineLoadOrOutput (torchInfo b) = true := by
  cases b <;> rfl

theorem setEnvs_pre5 (args : TrellisArgs) (w : TrellisWorld) :
    setEnvs (trellisPre5 args w) = [] := by
  cases hcu : w.cudaAvailable <;>
    simp [trellisPre5, trellisPre4, trellisPre3, trellisPre2, trellisPre1, dbgPre, torchInfo,
          hcu, trellisRunEvent, setEnvs_append, setEnvs]

theorem writtenFmts_pre5 (args : TrellisArgs) (w : TrellisWorld) :
    writtenFmts (trellisPre5 args w) = [] := by
  cases hcu : w.cudaAvailable <;>
    simp [trellisPre5, trellisPre4, trellisPre3, trellisPre2, trellisPre1, dbgPre, torchInfo,
          hcu, trellisRunEvent, writtenFmts_append, writtenFmts]

theorem hasWrites_pre5 (args : TrellisArgs) (w : TrellisWorld) :
    hasWrites (trellisPre5 args w) = false := by
  cases hcu : w.cudaAvailable <;>
    simp [trellisPre5, trellisPre4, trellisPre3, trellisPre2, trellisPre1, dbgPre, torchInfo,
          hcu, trellisRunEvent, hasWrites_append, hasWrites]

theorem mkdirsAcc_pre5 (args : TrellisArgs) (w : TrellisWorld) (cs : List String) :
    mkdirsAcc (trellisPre5 args w) cs = [args.output_dir] ++ cs := by
  cases hcu : w.cudaAvailable <;>
    simp [trellisPre5, trellisPre4, trellisPre3, trellisPre2, trellisPre1, dbgPre, torchInfo,
          hcu, trellisRunEvent, mkdirsAcc]

/-!
Claim C10: save_images_as_gif.
-/

/-- C10: save_images_as_gif, applied to a non-empty image list, converts
every frame whose mode is not RGB to RGB before saving and writes all frames
(the first frame plus the rest as appended frames, that is, the whole
converted list) to the given filename in one save call; applied to an empty
list it raises an IndexError, which nothing catches, before any file is
written (the error result carries no save event). -/
theorem c10_save_images_as_gif (images : List PILImage) (filename : FPath) (duration : Nat) :
    (images = [] → save_images_as_gif images filename duration = Except.error "IndexError") ∧
    (images ≠ [] →
      save_images_as_gif images filename duration =
        Except.ok (Event.saveGif filename (images.map rgbFrame) duration) ∧
      (images.map rgbFrame).length = images.length ∧
      (∀ fr ∈ images.map rgbFrame, fr.mode = "RGB") ∧
      (images.map rgbFrame).map PILImage.data = images.map PILImage.data) := by
  constructor
  · intro h
    subst h
    rfl
  · intro h
    refine ⟨?_, by simp, ?_, ?_⟩
    · unfold save_images_as_gif
      cases images with
      | nil => exact absurd rfl h
      | cons a l => rfl
    · intro fr hfr
      obtain ⟨x, hx, hfx⟩ := List.mem_map.mp hfr
      subst hfx
      unfold rgbFrame PILImage.convert
      by_cases hm : x.mode = "RGB" <;> simp [hm]
    · induction images with
      | nil => rfl
      | cons a l ih =>
        simp only [List.map_cons, List.cons.injEq] at *
        refine ⟨?_, by
          cases l with
          | nil => rfl
          | cons b m => exact ih (by simp)⟩
        unfold rgbFrame PILImage.convert
        by_cases hm : a.mode = "RGB" <;> simp [hm]

/-- Witness for C10 at a two-frame list (one RGBA frame, one RGB frame) and
at the empty list. -/
theorem c10_witness :
    save_images_as_gif [] ⟨"renders", "latent_0.gif"⟩ 120 = Except.error "IndexError" ∧
    save_images_as_gif [⟨"RGBA", 7⟩, ⟨"RGB", 8⟩] ⟨"renders", "latent_0.gif"⟩ 120 =
      Except.ok (Event.saveGif ⟨"renders", "latent_0.gif"⟩ [⟨"RGB", 7⟩, ⟨"RGB", 8⟩] 120) := by
  refine ⟨(c10_save_images_as_gif [] ⟨"renders", "latent_0.gif"⟩ 120).1 rfl, ?_⟩
  exact ((c10_save_images_as_gif [⟨"RGBA", 7⟩, ⟨"RGB", 8⟩] ⟨"renders", "latent_0.gif"⟩ 120).2
    (by simp)).1

/-!
Claim C6: the positional arguments of shap_e_generate.py.
-/

/-- C6: shap_e_generate.py reads its four positional arguments, in order, as
the prompt string, the guidance scale parsed by float(), the step count
parsed by int(), and the output OBJ path; the single sample_latents call of
the run receives exactly the parsed guidance scale (guidance_scale) and step
count (karras_steps), with batch_size 1 and texts [prompt]; and on a fully
successful run the mesh is written in OBJ format to the fourth argument. -/
theorem c6_positional_arguments (pyFloat : String → Option Rat) (pyInt : String → Option Int)
    (argv : List String) (w : ShapGenWorld) (g : Rat) (n : Int)
    (hlen : 5 ≤ argv.length)
    (hg : pyFloat (argv.getD 2 "") = some g)
    (hn : pyInt (argv.getD 3 "") = some n)
    (hload : w.loadOk = true) :
    sampleCalls (shapEGenerate pyFloat pyInt argv w).events =
      [Event.sampleLatents 1 g [argv.getD 1 ""] n] ∧
    (w.sampleOk = true → w.decodeOk = true → w.outDirExists = true →
      (shapEGenerate pyFloat pyInt argv w).events =
        shapELoads ++
          [Event.sampleLatents 1 g [argv.getD 1 ""] n, Event.decodeMesh 0,
           Event.openW (pathOfString (argv.getD 4 "")),
           Event.exportFile FileFmt.obj (pathOfString (argv.getD 4 "")),
           Event.out "Shap-E generation done, saved =>"]) := by
  have hlt : ¬ argv.length < 5 := Nat.not_lt.mpr hlen
  constructor
  · unfold shapEGenerate
    rw [if_neg hlt, hg, hn]
    simp only [hload]
    by_cases hs : w.sampleOk = false
    · simp [hs, sampleCalls_append, sampleCalls, shapELoads]
    · rw [Bool.not_eq_false] at hs
      by_cases hd : w.decodeOk = false
      · simp [hs, hd, sampleCalls_append, sampleCalls, shapELoads]
      · rw [Bool.not_eq_false] at hd
        by_cases ho : w.outDirExists = false <;>
          simp_all [sampleCalls_append, sampleCalls, shapELoads]
  · intro hs hd ho
    unfold shapEGenerate
    rw [if_neg hlt, hg, hn]
    simp [hload, hs, hd, ho]

/-- Witness for C6: the fixture command line, parsed by the stub
conversions, in the all-success world. -/
theorem c6_witness :
    sampleCalls (shapEGenerate pyFloatStub pyIntStub genArgv sgwOk).events =
      [Event.sampleLatents 1 15 ["a chair"] 64] ∧
    (shapEGenerate pyFloatStub pyIntStub genArgv sgwOk).events =
      shapELoads ++
        [Event.sampleLatents 1 15 ["a chair"] 64, Event.decodeMesh 0,
         Event.openW ⟨"results", "out.obj"⟩,
         Event.exportFile FileFmt.obj ⟨"results", "out.obj"⟩,
         Event.out "Shap-E generation done, saved =>"] := by
  have h := c6_positional_arguments pyFloatStub pyIntStub genArgv sgwOk 15 64
    (by decide) (by decide) (by decide) rfl
  have h2 := h.2 rfl rfl rfl
  constructor
  · rw [h.1]
    decide
  · rw [h2]
    decide

/-- No branch of trellis_wrapper.py main() writes an environment variable
(the only write is the module-level one). -/
theorem setEnvs_trellisMain (c : TrellisCmd) (w : TrellisWorld) :
    setEnvs (trellisMain c w).events = [] := by
  rcases trellisMain_cases c w with ⟨hp, h⟩ | ⟨args, hp, hbr⟩
  · rw [h]
    rfl
  · rcases hbr with ⟨h1, h⟩ | ⟨h1, h2, h⟩ | ⟨h1, h2, h3, h⟩ | ⟨h1, h2, h3, h4, h⟩ |
      ⟨h1, h2, h3, h4, h5, h⟩ | ⟨h1, h2, h3, h4, h5, h6, h⟩ | ⟨h1, h2, h3, h4, h5, h6, h7, h⟩ |
      ⟨h1, h2, h3, h4, h5, h6, h7, h8, h⟩ | ⟨h1, h2, h3, h4, h5, h6, h7, h8, h9, h⟩ |
      ⟨h1, h2, h3, h4, h5, h6, h7, h8, h9, h10, h⟩ |
      ⟨h1, h2, h3, h4, h5, h6, h7, h8, h9, h10, h⟩ <;>
    rw [h] <;>
    cases hcu : w.cudaAvailable <;>
    simp [trellisPre5, trellisPre4, trellisPre3, trellisPre2, trellisPre1, dbgPre, torchInfo,
          trellisRunEvent, unexpectedErr, importFailMsgs, saveFail, hcu,
          setEnvs_append, setEnvs]

theorem mkdirsAcc_append (l m : List Event) (cs : List String) :
    mkdirsAcc (l ++ m) cs = mkdirsAcc m (mkdirsAcc l cs) := by
  induction l generalizing cs with
  | nil => rfl
  | cons e r ih => cases e <;> simp [mkdirsAcc, ih]

theorem dirsReady_append (cs : List String) (l m : List Event) :
    dirsReady cs (l ++ m) = (dirsReady cs l && dirsReady (mkdirsAcc l cs) m) := by
  induction l generalizing cs with
  | nil => rfl
  | cons e r ih =>
    cases e <;> simp [dirsReady, mkdirsAcc, ih, Bool.and_assoc]

/-- An ok result of save_images_as_gif is the one save call at the given
filename and duration. -/
theorem save_images_as_gif_ok (images : List PILImage) (filename : FPath) (duration : Nat)
    (ev : Event) (h : save_images_as_gif images filename duration = Except.ok ev) :
    ∃ frames, ev = Event.saveGif filename frames duration := by
  unfold save_images_as_gif at h
  cases images with
  | nil => exact absurd h (by simp)
  | cons a l =>
    refine ⟨rgbFrame a :: l.map rgbFrame, ?_⟩
    simpa using h.symm

theorem setEnvs_renderIters (w : ShapRenderWorld) (is : List Nat) (acc : List Event) :
    setEnvs (renderIters w is acc).events = setEnvs acc := by
  induction is generalizing acc with
  | nil => rfl
  | cons i rest ih =>
    rw [renderIters]
    by_cases h1 : w.decodeImagesOk = false
    · simp [h1, setEnvs_append, setEnvs]
    · rw [if_neg h1]
      split
      · simp [setEnvs_append, setEnvs]
      · rename_i ev hs
        obtain ⟨frames, rfl⟩ := save_images_as_gif_ok _ _ _ _ hs
        by_cases h2 : w.decodeMeshOk = false
        · simp [h2, setEnvs_append, setEnvs]
        · rw [if_neg h2, ih]
          simp [setEnvs_append, setEnvs]

theorem writtenFmts_renderIters (w : ShapRenderWorld) (is : List Nat) (acc : List Event) :
    ∀ f ∈ writtenFmts (renderIters w is acc).events,
      f ∈ writtenFmts acc ∨ f = FileFmt.gif ∨ f = FileFmt.ply ∨ f = FileFmt.obj := by
  induction is generalizing acc with
  | nil => intro f hf; exact Or.inl hf
  | cons i rest ih =>
    intro f hf
    rw [renderIters] at hf
    by_cases h1 : w.decodeImagesOk = false
    · rw [if_pos h1] at hf
      simp only [writtenFmts_append] at hf
      rcases List.mem_append.mp hf with hl | hr
      · exact Or.inl hl
      · simp [writtenFmts] at hr
    · rw [if_neg h1] at hf
      split at hf
      · simp only [writtenFmts_append] at hf
        rcases List.mem_append.mp hf with hl | hr
        · exact Or.inl hl
        · simp [writtenFmts] at hr
      · rename_i ev hs
        obtain ⟨frames, rfl⟩ := save_images_as_gif_ok _ _ _ _ hs
        by_cases h2 : w.decodeMeshOk = false
        · rw [if_pos h2] at hf
          simp only [writtenFmts_append] at hf
          rcases List.mem_append.mp hf with hl | hr
          · exact Or.inl hl
          · simp [writtenFmts] at hr
            exact Or.inr (Or.inl hr)
        · rw [if_neg h2] at hf
          rcases ih _ f hf with hl | hr
          · simp only [writtenFmts_append] at hl
            rcases List.mem_append.mp hl with ha | hb
            · exact Or.inl ha
            · simp [writtenFmts] at hb
              rcases hb with h | h | h
              · exact Or.inr (Or.inl h)
              · exact Or.inr (Or.inr (Or.inl h))
              · exact Or.inr (Or.inr (Or.inr h))
          · exact Or.inr hr

theorem setEnvs_shapEGenerate (pf : String → Option Rat) (pi : String → Option Int)
    (argv : List String) (w : ShapGenWorld) :
    setEnvs (shapEGenerate pf pi argv w).events = [] := by
  unfold shapEGenerate
  by_cases hl : argv.length < 5
  · simp [hl, setEnvs]
  · rw [if_neg hl]
    cases hf : pf (argv.getD 2 "") with
    | none => rfl
    | some g =>
      cases hn : pi (argv.getD 3 "") with
      | none => rfl
      | some n =>
        by_cases h1 : w.loadOk = false
        · simp [h1, setEnvs]
        · by_cases h2 : w.sampleOk = false <;> by_cases h3 : w.decodeOk = false <;>
            by_cases h4 : w.outDirExists = false <;>
            simp [h1, h2, h3, h4, setEnvs_append, setEnvs, shapELoads]

theorem setEnvs_shapETest (w : ShapTestWorld) : setEnvs (shapETest w).events = [] := by
  unfold shapETest
  by_cases h1 : w.loadOk = false
  · simp [h1, setEnvs]
  · by_cases h2 : w.sampleOk = false <;> by_cases h3 : w.decodeOk = false <;>
      simp [h1, h2, h3, setEnvs_append, setEnvs, shapELoads, shapETestIter]

theorem setEnvs_shapERender (w : ShapRenderWorld) : setEnvs (shapERender w).events = [] := by
  unfold shapERender
  by_cases h1 : w.loadOk = false
  · simp [h1, setEnvs]
  · by_cases h2 : w.sampleOk = false
    · simp [h1, h2, setEnvs_append, setEnvs, shapELoads]
    · rw [if_neg h1, if_neg h2, setEnvs_renderIters]
      simp [setEnvs_append, setEnvs, shapELoads]

/-!
Claim C7: environment variables.
-/

/-- C7: exactly one environment variable is set by the scripts of the
repository: trellis_wrapper.py writes SPCONV_ALGO = "native" at module load
time, as the very first action of the run (hence before any pipeline call),
and its main() writes no further environment variable; none of the three
shap-e scripts writes any environment variable. -/
theorem c7_env_vars :
    (∀ (c : TrellisCmd) (w : TrellisWorld),
       setEnvs (trellisScript c w).events = [("SPCONV_ALGO", "native")] ∧
       (trellisScript c w).events.head? = some (Event.setEnv "SPCONV_ALGO" "native")) ∧
    (∀ (pf : String → Option Rat) (pi : String → Option Int) (argv : List String)
       (w : ShapGenWorld), setEnvs (shapEGenerate pf pi argv w).events = []) ∧
    (∀ w : ShapTestWorld, setEnvs (shapETest w).events = []) ∧
    (∀ w : ShapRenderWorld, setEnvs (shapERender w).events = []) := by
  refine ⟨fun c w => ⟨?_, ?_⟩, setEnvs_shapEGenerate, setEnvs_shapETest, setEnvs_shapERender⟩
  · show setEnvs (Event.setEnv "SPCONV_ALGO" "native" :: (trellisMain c w).events) = _
    rw [setEnvs, setEnvs_trellisMain]
  · rfl

/-!
Claim C1: top-level error handling.  The claim says every script catches
exceptions at its top level and reports them to standard output with a stack
trace before exiting nonzero.  Only trellis_wrapper.py has a top-level
try/except; the three shap-e scripts have none, so their exceptions
propagate to the interpreter (traceback on standard error); and even
trellis_wrapper.py sends the stack trace to standard error, because
traceback.print_exc() writes to sys.stderr.
-/

/-- C1 counterexample: shap_e_generate.py invoked with a guidance-scale
argument that float() rejects.  The ValueError is not caught at any level of
the script (the termination is an uncaught exception, not a handled exit),
and nothing at all is printed to standard output. -/
theorem c1_counterexample :
    (shapEGenerate pyFloatStub pyIntStub
        ["shap_e_generate.py", "a chair", "abc", "64", "out.obj"] sgwOk).term =
      Termination.uncaught "ValueError" ∧
    (shapEGenerate pyFloatStub pyIntStub
        ["shap_e_generate.py", "a chair", "abc", "64", "out.obj"] sgwOk).events = [] := by
  decide

/-- C1 amended: only trellis_wrapper.py catches exceptions at its top level:
no run of it ends in an uncaught exception, and on a failed import, a failed
inference and a failed export it prints an ERROR message to standard output,
prints the stack trace to standard error (traceback.print_exc writes to
sys.stderr, not stdout), and exits with status 1.  The shap-e scripts catch
nothing: a failed float() conversion or a failed model load ends the run in
an uncaught exception, which makes the interpreter print the traceback to
standard error and exit with status 1. -/
theorem c1_amended :
    (∀ (c : TrellisCmd) (w : TrellisWorld) (e : String),
       (trellisScript c w).term ≠ Termination.uncaught e) ∧
    (∀ (c : TrellisCmd) (w : TrellisWorld) (args : TrellisArgs),
       parseTrellis c = some args → args.output_dir ≠ "" → w.importOk = false →
       (trellisScript c w).term = Termination.exited 1 ∧
       Event.out "ERROR: Failed to import TRELLIS modules:" ∈ (trellisScript c w).events ∧
       Event.printExcStderr ∈ (trellisScript c w).events) ∧
    (∀ (c : TrellisCmd) (w : TrellisWorld) (args : TrellisArgs),
       parseTrellis c = some args → args.output_dir ≠ "" → w.importOk = true →
       args.mode = "image" → w.loadOk = true → w.inputExists = true → w.openOk = true →
       w.runOk = false →
       (trellisScript c w).term = Termination.exited 1 ∧
       Event.out "ERROR: An unexpected error occurred:" ∈ (trellisScript c w).events ∧
       Event.printExcStderr ∈ (trellisScript c w).events) ∧
    (∀ (c : TrellisCmd) (w : TrellisWorld) (args : TrellisArgs),
       parseTrellis c = some args → args.output_dir ≠ "" → w.importOk = true →
       args.mode = "image" → w.loadOk = true → w.inputExists = true → w.openOk = true →
       w.runOk = true → w.libsOk = true → w.glbOk = false →
       (trellisScript c w).term = Termination.exited 1 ∧
       Event.out "ERROR: Failed to save outputs:" ∈ (trellisScript c w).events ∧
       Event.printExcStderr ∈ (trellisScript c w).events) ∧
    (∀ (pf : String → Option Rat) (pi : String → Option Int) (argv : List String)
       (w : ShapGenWorld), ¬ argv.length < 5 → pf (argv.getD 2 "") = none →
       (shapEGenerate pf pi argv w).term = Termination.uncaught "ValueError") ∧
    (∀ (pf : String → Option Rat) (pi : String → Option Int) (argv : List String)
       (w : ShapGenWorld) (g : Rat) (n : Int), ¬ argv.length < 5 →
       pf (argv.getD 2 "") = some g → pi (argv.getD 3 "") = some n → w.loadOk = false →
       (shapEGenerate pf pi argv w).term = Termination.uncaught "Exception") ∧
    (∀ w : ShapTestWorld, w.loadOk = false →
       (shapETest w).term = Termination.uncaught "Exception") ∧
    (∀ w : ShapRenderWorld, w.loadOk = false →
       (shapERender w).term = Termination.uncaught "Exception") := by
  refine ⟨?_, ?_, ?_, ?_, ?_, ?_, ?_, ?_⟩
  · intro c w e
    show (trellisMain c w).term ≠ _
    rcases trellisMain_cases c w with ⟨hp, h⟩ | ⟨args, hp, hbr⟩
    · rw [h]
      simp
    · rcases hbr with ⟨h1, h⟩ | ⟨h1, h2, h⟩ | ⟨h1, h2, h3, h⟩ | ⟨h1, h2, h3, h4, h⟩ |
        ⟨h1, h2, h3, h4, h5, h⟩ | ⟨h1, h2, h3, h4, h5, h6, h⟩ |
        ⟨h1, h2, h3, h4, h5, h6, h7, h⟩ | ⟨h1, h2, h3, h4, h5, h6, h7, h8, h⟩ |
        ⟨h1, h2, h3, h4, h5, h6, h7, h8, h9, h⟩ |
        ⟨h1, h2, h3, h4, h5, h6, h7, h8, h9, h10, h⟩ |
        ⟨h1, h2, h3, h4, h5, h6, h7, h8, h9, h10, h⟩ <;> rw [h] <;> simp
  · intro c w args hp h1 h2
    have hm : trellisMain c w = ⟨Termination.exited 1, trellisPre1 args ++ importFailMsgs⟩ := by
      simp [trellisMain, hp, h1, h2]
    refine ⟨?_, ?_, ?_⟩
    · show (trellisMain c w).term = _
      rw [hm]
    · show _ ∈ Event.setEnv "SPCONV_ALGO" "native" :: (trellisMain c w).events
      rw [hm]
      simp [trellisPre1, dbgPre, importFailMsgs]
    · show _ ∈ Event.setEnv "SPCONV_ALGO" "native" :: (trellisMain c w).events
      rw [hm]
      simp [trellisPre1, dbgPre, importFailMsgs]
  · intro c w args hp h1 h2 h3 h4 h5 h6 h7
    have hm : trellisMain c w =
        ⟨Termination.exited 1, trellisPre4 args w ++ [trellisRunEvent args] ++ unexpectedErr⟩ := by
      simp [trellisMain, hp, h1, h2, h3, h4, h5, h6, h7]
    refine ⟨?_, ?_, ?_⟩
    · show (trellisMain c w).term = _
      rw [hm]
    · show _ ∈ Event.setEnv "SPCONV_ALGO" "native" :: (trellisMain c w).events
      rw [hm]
      simp [unexpectedErr]
    · show _ ∈ Event.setEnv "SPCONV_ALGO" "native" :: (trellisMain c w).events
      rw [hm]
      simp [unexpectedErr]
  · intro c w args hp h1 h2 h3 h4 h5 h6 h7 h8 h9
    have hm : trellisMain c w = ⟨Termination.exited 1, trellisPre5 args w ++ saveFail⟩ := by
      simp [trellisMain, trellisSave, hp, h1, h2, h3, h4, h5, h6, h7, h8, h9]
    refine ⟨?_, ?_, ?_⟩
    · show (trellisMain c w).term = _
      rw [hm]
    · show _ ∈ Event.setEnv "SPCONV_ALGO" "native" :: (trellisMain c w).events
      rw [hm]
      simp [saveFail]
    · show _ ∈ Event.setEnv "SPCONV_ALGO" "native" :: (trellisMain c w).events
      rw [hm]
      simp [saveFail]
  · intro pf pi argv w hl hf
    unfold shapEGenerate
    rw [if_neg hl, hf]
  · intro pf pi argv w g n hl hf hn h1
    unfold shapEGenerate
    rw [if_neg hl, hf, hn]
    simp [h1]
  · intro w h1
    unfold shapETest
    rw [if_pos h1]
  · intro w h1
    unfold shapERender
    rw [if_pos h1]

/-- Witness for C1 amended, at the import-failure trellis run and the
bad-guidance shap_e_generate run of the fixtures. -/
theorem c1_witness :
    (trellisScript cmdText twNoImport).term = Termination.exited 1 ∧
    Event.out "ERROR: Failed to import TRELLIS modules:" ∈ (trellisScript cmdText twNoImport).events ∧
    Event.printExcStderr ∈ (trellisScript cmdText twNoImport).events ∧
    (shapEGenerate pyFloatStub pyIntStub
        ["shap_e_generate.py", "a chair", "abc", "64", "out.obj"] sgwOk).term =
      Termination.uncaught "ValueError" ∧
    (trellisScript cmdText twNoImport).term ≠ Termination.uncaught "Exception" := by
  have hb := c1_amended.2.1 cmdText twNoImport
    ⟨"text", "a red chair", "outdir", 0, 12, 15 / 2, 12, 3⟩ rfl (by decide) rfl
  refine ⟨hb.1, hb.2.1, hb.2.2, ?_, ?_⟩
  · exact c1_amended.2.2.2.2.1 pyFloatStub pyIntStub
      ["shap_e_generate.py", "a chair", "abc", "64", "out.obj"] sgwOk (by decide) (by decide)
  · exact c1_amended.1 cmdText twNoImport "Exception"

/-!
Claim C2: the exit codes of trellis_wrapper.py.  The claim says exit 1
exactly on input/import/export failure and exit 0 otherwise.  The code
exits 1 in further situations: text mode (not implemented), a failing
pipeline load, image open or inference, and a failing makedirs; and exits 2
when argparse rejects the command line.
-/

/-- C2 counterexample: a text-mode invocation in the all-success world.  The
input file exists, the import succeeds and the export library calls would
succeed, so none of the three failures named by the claim occurs, yet the
process exits with code 1 (the not-implemented branch), not 0. -/
theorem c2_counterexample :
    twOk.importOk = true ∧ twOk.inputExists = true ∧ twOk.libsOk = true ∧
    twOk.glbOk = true ∧ twOk.objOk = true ∧
    (trellisScript cmdText twOk).term = Termination.exited 1 := by
  decide

/-- C2 amended: trellis_wrapper.py exits 2 when argparse rejects the command
line; exits 1 on an import failure, on a missing input file (image mode), on
a failing export, and also on a text-mode invocation even when nothing
fails, on a failing makedirs (empty output directory), on a failing pipeline
load, image open or inference, and on a failing imageio/trimesh/numpy
import; and exits 0 exactly on a fully successful image-mode run (the last
clause is the biconditional characterizing the successful termination). -/
theorem c2_amended :
    (∀ (c : TrellisCmd) (w : TrellisWorld), parseTrellis c = none →
       (trellisScript c w).term = Termination.exited 2) ∧
    (∀ (c : TrellisCmd) (w : TrellisWorld) (args : TrellisArgs),
       parseTrellis c = some args → args.output_dir ≠ "" → w.importOk = false →
       (trellisScript c w).term = Termination.exited 1) ∧
    (∀ (c : TrellisCmd) (w : TrellisWorld) (args : TrellisArgs),
       parseTrellis c = some args → args.mode = "image" → w.inputExists = false →
       (trellisScript c w).term = Termination.exited 1) ∧
    (∀ (c : TrellisCmd) (w : TrellisWorld) (args : TrellisArgs),
       parseTrellis c = some args → args.output_dir ≠ "" → w.importOk = true →
       args.mode = "image" → w.loadOk = true → w.inputExists = true → w.openOk = true →
       w.runOk = true → w.libsOk = true → (w.glbOk = false ∨ w.objOk = false) →
       (trellisScript c w).term = Termination.exited 1) ∧
    (∀ (c : TrellisCmd) (w : TrellisWorld) (args : TrellisArgs),
       parseTrellis c = some args → args.output_dir ≠ "" → w.importOk = true →
       args.mode ≠ "image" →
       (trellisScript c w).term = Termination.exited 1) ∧
    (∀ (c : TrellisCmd) (w : TrellisWorld) (args : TrellisArgs),
       parseTrellis c = some args → args.output_dir = "" →
       (trellisScript c w).term = Termination.exited 1) ∧
    (∀ (c : TrellisCmd) (w : TrellisWorld) (args : TrellisArgs),
       parseTrellis c = some args → args.output_dir ≠ "" → w.importOk = true →
       args.mode = "image" → w.loadOk = false →
       (trellisScript c w).term = Termination.exited 1) ∧
    (∀ (c : TrellisCmd) (w : TrellisWorld) (args : TrellisArgs),
       parseTrellis c = some args → args.output_dir ≠ "" → w.importOk = true →
       args.mode = "image" → w.loadOk = true → w.inputExists = true → w.openOk = false →
       (trellisScript c w).term = Termination.exited 1) ∧
    (∀ (c : TrellisCmd) (w : TrellisWorld) (args : TrellisArgs),
       parseTrellis c = some args → args.output_dir ≠ "" → w.importOk = true →
       args.mode = "image" → w.loadOk = true → w.inputExists = true → w.openOk = true →
       w.runOk = false →
       (trellisScript c w).term = Termination.exited 1) ∧
    (∀ (c : TrellisCmd) (w : TrellisWorld) (args : TrellisArgs),
       parseTrellis c = some args → args.output_dir ≠ "" → w.importOk = true →
       args.mode = "image" → w.loadOk = true → w.inputExists = true → w.openOk = true →
       w.runOk = true → w.libsOk = false →
       (trellisScript c w).term = Termination.exited 1) ∧
    (∀ (c : TrellisCmd) (w : TrellisWorld) (args : TrellisArgs),
       parseTrellis c = some args → args.output_dir ≠ "" → args.mode = "image" →
       w.importOk = true → w.loadOk = true → w.inputExists = true → w.openOk = true →
       w.runOk = true → w.libsOk = true → w.glbOk = true → w.objOk = true →
       (trellisScript c w).term = Termination.normal) ∧
    (∀ (c : TrellisCmd) (w : TrellisWorld),
       (trellisScript c w).term = Termination.normal ↔
         ∃ args, parseTrellis c = some args ∧ args.output_dir ≠ "" ∧ args.mode = "image" ∧
           w.importOk = true ∧ w.loadOk = true ∧ w.inputExists = true ∧ w.openOk = true ∧
           w.runOk = true ∧ w.libsOk = true ∧ w.glbOk = true ∧ w.objOk = true) := by
  refine ⟨?_, ?_, ?_, ?_, ?_, ?_, ?_, ?_, ?_, ?_, ?_, ?_⟩
  · intro c w hp
    show (trellisMain c w).term = _
    simp [trellisMain, hp]
  · intro c w args hp h1 h2
    show (trellisMain c w).term = _
    simp [trellisMain, hp, h1, h2]
  · intro c w args hp hmode hinput
    show (trellisMain c w).term = _
    by_cases h1 : args.output_dir = ""
    · simp [trellisMain, hp, h1]
    by_cases h2 : w.importOk = false
    · simp [trellisMain, hp, h1, h2]
    by_cases h4 : w.loadOk = false
    · simp [trellisMain, hp, h1, h2, hmode, h4]
    · simp [trellisMain, hp, h1, h2, hmode, h4, hinput]
  · intro c w args hp h1 h2 h3 h4 h5 h6 h7 h8 hexp
    show (trellisMain c w).term = _
    rcases hexp with h9 | h10
    · simp [trellisMain, trellisSave, hp, h1, h2, h3, h4, h5, h6, h7, h8, h9]
    · by_cases h9 : w.glbOk = false
      · simp [trellisMain, trellisSave, hp, h1, h2, h3, h4, h5, h6, h7, h8, h9]
      · simp only [Bool.not_eq_false] at h9
        simp [trellisMain, trellisSave, hp, h1, h2, h3, h4, h5, h6, h7, h8, h9, h10]
  · intro c w args hp h1 h2 h3
    show (trellisMain c w).term = _
    simp [trellisMain, hp, h1, h2, h3]
  · intro c w args hp h1
    show (trellisMain c w).term = _
    simp [trellisMain, hp, h1]
  · intro c w args hp h1 h2 h3 h4
    show (trellisMain c w).term = _
    simp [trellisMain, hp, h1, h2, h3, h4]
  · intro c w args hp h1 h2 h3 h4 h5 h6
    show (trellisMain c w).term = _
    simp [trellisMain, hp, h1, h2, h3, h4, h5, h6]
  · intro c w args hp h1 h2 h3 h4 h5 h6 h7
    show (trellisMain c w).term = _
    simp [trellisMain, hp, h1, h2, h3, h4, h5, h6, h7]
  · intro c w args hp h1 h2 h3 h4 h5 h6 h7 h8
    show (trellisMain c w).term = _
    simp [trellisMain, trellisSave, hp, h1, h2, h3, h4, h5, h6, h7, h8]
  · intro c w args hp h1 h2 h3 h4 h5 h6 h7 h8 h9 h10
    show (trellisMain c w).term = _
    simp [trellisMain, trellisSave, hp, h1, h2, h3, h4, h5, h6, h7, h8, h9, h10]
  · intro c w
    constructor
    · intro ht
      have ht2 : (trellisMain c w).term = Termination.normal := ht
      rcases trellisMain_cases c w with ⟨hp, h⟩ | ⟨args, hp, hbr⟩
      · rw [h] at ht2
        exact Termination.noConfusion ht2
      · rcases hbr with ⟨h1, h⟩ | ⟨h1, h2, h⟩ | ⟨h1, h2, h3, h⟩ | ⟨h1, h2, h3, h4, h⟩ |
          ⟨h1, h2, h3, h4, h5, h⟩ | ⟨h1, h2, h3, h4, h5, h6, h⟩ |
          ⟨h1, h2, h3, h4, h5, h6, h7, h⟩ | ⟨h1, h2, h3, h4, h5, h6, h7, h8, h⟩ |
          ⟨h1, h2, h3, h4, h5, h6, h7, h8, h9, h⟩ |
          ⟨h1, h2, h3, h4, h5, h6, h7, h8, h9, h10, h⟩ |
          ⟨h1, h2, h3, h4, h5, h6, h7, h8, h9, h10, h⟩ <;> rw [h] at ht2 <;>
        first
        | exact Termination.noConfusion ht2
        | exact ⟨args, hp, h1, h3, h2, h4, h5, h6, h7, h8, h9, h10⟩
    · rintro ⟨args, hp, h1, h3, h2, h4, h5, h6, h7, h8, h9, h10⟩
      show (trellisMain c w).term = _
      simp [trellisMain, trellisSave, hp, h1, h2, h3, h4, h5, h6, h7, h8, h9, h10]

/-- Witness for C2 amended: the image-mode fixture run succeeds (exit 0) in
the all-success world, and the text-mode fixture run exits 1 there. -/
theorem c2_witness :
    (trellisScript cmdImage twOk).term = Termination.normal ∧
    (trellisScript cmdText twOk).term = Termination.exited 1 := by
  constructor
  · exact c2_amended.2.2.2.2.2.2.2.2.2.2.1 cmdImage twOk
      ⟨"image", "input.png", "outdir", 0, 12, 15 / 2, 12, 3⟩ rfl (by decide) rfl rfl rfl rfl
      rfl rfl rfl rfl rfl
  · exact c2_amended.2.2.2.2.1 cmdText twOk
      ⟨"text", "a red chair", "outdir", 0, 12, 15 / 2, 12, 3⟩ rfl (by decide) rfl (by decide)

/-!
Claim C3: argument validation exit codes.  trellis_wrapper.py behaves as the
claim says (argparse exits 2 on a missing required flag, a nonexistent input
image exits 1), but shap_e_generate.py exits 1, not 2, when required
positional arguments are missing.
-/

/-- C3 counterexample: shap_e_generate.py invoked with no arguments (a
required argument is certainly missing) terminates with exit code 1 and not
with exit code 2. -/
theorem c3_counterexample :
    (shapEGenerate pyFloatStub pyIntStub ["shap_e_generate.py"] sgwOk).term =
      Termination.exited 1 ∧
    (shapEGenerate pyFloatStub pyIntStub ["shap_e_generate.py"] sgwOk).term ≠
      Termination.exited 2 := by
  decide

/-- C3 amended: trellis_wrapper.py exits 2 when a required flag (input or
output_dir) is missing and exits 1 when the named input image does not exist
in image mode; shap_e_generate.py, however, exits 1 (after printing its
usage line) whenever fewer than the four required positional arguments are
given. -/
theorem c3_amended :
    (∀ (c : TrellisCmd) (w : TrellisWorld), c.input = none ∨ c.output_dir = none →
       (trellisScript c w).term = Termination.exited 2) ∧
    (∀ (c : TrellisCmd) (w : TrellisWorld) (args : TrellisArgs),
       parseTrellis c = some args → args.mode = "image" → w.inputExists = false →
       (trellisScript c w).term = Termination.exited 1) ∧
    (∀ (pf : String → Option Rat) (pi : String → Option Int) (argv : List String)
       (w : ShapGenWorld), argv.length < 5 →
       (shapEGenerate pf pi argv w).term = Termination.exited 1) := by
  refine ⟨?_, ?_, ?_⟩
  · intro c w h
    have hp : parseTrellis c = none := by
      rcases h with h | h
      · cases ho : c.output_dir <;> simp [parseTrellis, h, ho]
      · cases hi : c.input <;> simp [parseTrellis, h, hi]
    show (trellisMain c w).term = _
    simp [trellisMain, hp]
  · intro c w args hp hmode hinput
    show (trellisMain c w).term = _
    by_cases h1 : args.output_dir = ""
    · simp [trellisMain, hp, h1]
    by_cases h2 : w.importOk = false
    · simp [trellisMain, hp, h1, h2]
    by_cases h4 : w.loadOk = false
    · simp [trellisMain, hp, h1, h2, hmode, h4]
    · simp [trellisMain, hp, h1, h2, hmode, h4, hinput]
  · intro pf pi argv w hl
    unfold shapEGenerate
    rw [if_pos hl]

/-- A command line for trellis_wrapper.py missing the required input flag. -/
def cmdMissingInput : TrellisCmd := ⟨none, none, some "outdir", none, none, none, none, none⟩

/-- The all-success trellis world except that the input image is absent. -/
def twNoInput : TrellisWorld := ⟨true, true, true, false, true, true, true, true, true⟩

/-- Witness for C3 amended at the three fixture invocations. -/
theorem c3_witness :
    (trellisScript cmdMissingInput twOk).term = Termination.exited 2 ∧
    (trellisScript cmdImage twNoInput).term = Termination.exited 1 ∧
    (shapEGenerate pyFloatStub pyIntStub ["shap_e_generate.py", "a chair"] sgwOk).term =
      Termination.exited 1 := by
  refine ⟨c3_amended.1 cmdMissingInput twOk (Or.inl rfl), ?_, ?_⟩
  · exact c3_amended.2.1 cmdImage twNoInput
      ⟨"image", "input.png", "outdir", 0, 12, 15 / 2, 12, 3⟩ rfl rfl rfl
  · exact c3_amended.2.2 pyFloatStub pyIntStub ["shap_e_generate.py", "a chair"] sgwOk
      (by decide)

theorem hasWrites_pre1 (args : TrellisArgs) : hasWrites (trellisPre1 args) = false := by
  simp [trellisPre1, dbgPre, hasWrites_append, hasWrites]

theorem hasWrites_pre2 (args : TrellisArgs) (w : TrellisWorld) :
    hasWrites (trellisPre2 args w) = false := by
  cases hcu : w.cudaAvailable <;>
    simp [trellisPre2, trellisPre1, dbgPre, torchInfo, hcu, hasWrites_append, hasWrites]

theorem hasWrites_pre3 (args : TrellisArgs) (w : TrellisWorld) :
    hasWrites (trellisPre3 args w) = false := by
  unfold trellisPre3
  rw [hasWrites_append, hasWrites_pre2]
  rfl

theorem hasWrites_pre4 (args : TrellisArgs) (w : TrellisWorld) :
    hasWrites (trellisPre4 args w) = false := by
  unfold trellisPre4
  rw [hasWrites_append, hasWrites_pre3]
  rfl

theorem dirsReady_pre5 (args : TrellisArgs) (w : TrellisWorld) (cs : List String) :
    dirsReady cs (trellisPre5 args w) = true :=
  dirsReady_of_no_writes _ (hasWrites_pre5 args w) cs

/-- Every trace of trellis_wrapper.py only writes into the directory its own
makedirs call created. -/
theorem dirsReady_trellisScript (c : TrellisCmd) (w : TrellisWorld) :
    dirsReady [] (trellisScript c w).events = true := by
  show dirsReady [] (Event.setEnv "SPCONV_ALGO" "native" :: (trellisMain c w).events) = true
  rcases trellisMain_cases c w with ⟨hp, h⟩ | ⟨args, hp, hbr⟩
  · rw [h]
    rfl
  · rcases hbr with ⟨h1, h⟩ | ⟨h1, h2, h⟩ | ⟨h1, h2, h3, h⟩ | ⟨h1, h2, h3, h4, h⟩ |
      ⟨h1, h2, h3, h4, h5, h⟩ | ⟨h1, h2, h3, h4, h5, h6, h⟩ |
      ⟨h1, h2, h3, h4, h5, h6, h7, h⟩ | ⟨h1, h2, h3, h4, h5, h6, h7, h8, h⟩ |
      ⟨h1, h2, h3, h4, h5, h6, h7, h8, h9, h⟩ |
      ⟨h1, h2, h3, h4, h5, h6, h7, h8, h9, h10, h⟩ |
      ⟨h1, h2, h3, h4, h5, h6, h7, h8, h9, h10, h⟩ <;> rw [h] <;>
    cases hcu : w.cudaAvailable <;>
    simp [dirsReady, trellisPre5, trellisPre4, trellisPre3, trellisPre2, trellisPre1, dbgPre,
          torchInfo, hcu, trellisRunEvent, unexpectedErr, importFailMsgs, saveFail, osPathJoin]

/-- Every trace of shap_e_test.py only writes into the meshes directory its
own makedirs call created. -/
theorem dirsReady_shapETest (w : ShapTestWorld) : dirsReady [] (shapETest w).events = true := by
  unfold shapETest
  by_cases h1 : w.loadOk = false
  · simp [h1, dirsReady]
  · by_cases h2 : w.sampleOk = false <;> by_cases h3 : w.decodeOk = false <;>
      simp [h1, h2, h3, dirsReady, dirsReady_append, mkdirsAcc, shapELoads, shapETestIter,
            osPathJoin, List.range, List.range.loop]

theorem dirsReady_renderIters (w : ShapRenderWorld) (is : List Nat) (acc : List Event)
    (hacc : dirsReady [] acc = true)
    (hren : "renders" ∈ mkdirsAcc acc [])
    (hmesh : "meshes" ∈ mkdirsAcc acc []) :
    dirsReady [] (renderIters w is acc).events = true := by
  induction is generalizing acc with
  | nil => exact hacc
  | cons i rest ih =>
    rw [renderIters]
    by_cases h1 : w.decodeImagesOk = false
    · rw [if_pos h1]
      show dirsReady [] (acc ++ [Event.decodeImages i]) = true
      rw [dirsReady_append, hacc]
      simp [dirsReady]
    · rw [if_neg h1]
      split
      · show dirsReady [] (acc ++ [Event.decodeImages i]) = true
        rw [dirsReady_append, hacc]
        simp [dirsReady]
      · rename_i ev hs
        obtain ⟨frames, rfl⟩ := save_images_as_gif_ok _ _ _ _ hs
        by_cases h2 : w.decodeMeshOk = false
        · rw [if_pos h2]
          show dirsReady [] (acc ++ _) = true
          rw [dirsReady_append, hacc]
          simp [dirsReady, osPathJoin, hren]
        · rw [if_neg h2]
          apply ih
          · rw [dirsReady_append, hacc]
            simp [dirsReady, osPathJoin, hren, hmesh]
          · rw [mkdirsAcc_append]
            simpa [mkdirsAcc, osPathJoin] using hren
          · rw [mkdirsAcc_append]
            simpa [mkdirsAcc, osPathJoin] using hmesh

/-- Every trace of shap_e_test_with_render.py only writes into the renders
and meshes directories its own makedirs calls created. -/
theorem dirsReady_shapERender (w : ShapRenderWorld) :
    dirsReady [] (shapERender w).events = true := by
  unfold shapERender
  by_cases h1 : w.loadOk = false
  · simp [h1, dirsReady]
  · by_cases h2 : w.sampleOk = false
    · simp [h1, h2, dirsReady, dirsReady_append, mkdirsAcc, shapELoads]
    · rw [if_neg h1, if_neg h2]
      apply dirsReady_renderIters
      · simp [dirsReady, dirsReady_append, mkdirsAcc, shapELoads]
      · simp [mkdirsAcc_append, mkdirsAcc, shapELoads]
      · simp [mkdirsAcc_append, mkdirsAcc, shapELoads]

/-!
Claim C4: output directories are created before writing.  True for
trellis_wrapper.py, shap_e_test.py and shap_e_test_with_render.py; false for
shap_e_generate.py, which never calls makedirs: when the parent directory of
its output path is absent, open(output_obj, "w") raises FileNotFoundError.
-/

/-- C4 counterexample: shap_e_generate.py writing to results/out.obj while
the results directory is absent.  The write is attempted (the openW event is
in the trace), no makedirs call ever happens, and the run dies on an
uncaught FileNotFoundError instead of creating the directory first. -/
theorem c4_counterexample :
    Event.openW ⟨"results", "out.obj"⟩ ∈
      (shapEGenerate pyFloatStub pyIntStub genArgv sgwNoDir).events ∧
    hasMakedirs (shapEGenerate pyFloatStub pyIntStub genArgv sgwNoDir).events = false ∧
    (shapEGenerate pyFloatStub pyIntStub genArgv sgwNoDir).term =
      Termination.uncaught "FileNotFoundError" := by
  decide

/-- C4 amended: trellis_wrapper.py, shap_e_test.py and
shap_e_test_with_render.py write (and attempt to write) only into
directories that an earlier makedirs call of the same run created;
shap_e_generate.py creates no directory at all before attempting its write,
and when the parent directory of its output path is absent the attempt
raises an uncaught FileNotFoundError. -/
theorem c4_amended :
    (∀ (c : TrellisCmd) (w : TrellisWorld), dirsReady [] (trellisScript c w).events = true) ∧
    (∀ w : ShapTestWorld, dirsReady [] (shapETest w).events = true) ∧
    (∀ w : ShapRenderWorld, dirsReady [] (shapERender w).events = true) ∧
    (∀ (pf : String → Option Rat) (pi : String → Option Int) (argv : List String)
       (w : ShapGenWorld) (g : Rat) (n : Int), ¬ argv.length < 5 →
       pf (argv.getD 2 "") = some g → pi (argv.getD 3 "") = some n →
       w.loadOk = true → w.sampleOk = true → w.decodeOk = true →
       hasMakedirs (shapEGenerate pf pi argv w).events = false ∧
       Event.openW (pathOfString (argv.getD 4 "")) ∈ (shapEGenerate pf pi argv w).events ∧
       (w.outDirExists = false →
         (shapEGenerate pf pi argv w).term = Termination.uncaught "FileNotFoundError")) := by
  refine ⟨dirsReady_trellisScript, dirsReady_shapETest, dirsReady_shapERender, ?_⟩
  intro pf pi argv w g n hl hf hn h1 h2 h3
  unfold shapEGenerate
  rw [if_neg hl, hf, hn]
  by_cases h4 : w.outDirExists = false <;>
    simp [h1, h2, h3, h4, hasMakedirs_append, hasMakedirs, shapELoads]

/-- Witness for C4 amended at the fixture invocations, with the
shap_e_generate.py part taken in the absent-directory world. -/
theorem c4_witness :
    dirsReady [] (trellisScript cmdImage twOk).events = true ∧
    dirsReady [] (shapETest stwOk).events = true ∧
    hasMakedirs (shapEGenerate pyFloatStub pyIntStub genArgv sgwNoDir).events = false ∧
    (shapEGenerate pyFloatStub pyIntStub genArgv sgwNoDir).term =
      Termination.uncaught "FileNotFoundError" := by
  have h := c4_amended.2.2.2 pyFloatStub pyIntStub genArgv sgwNoDir 15 64
    (by decide) (by decide) (by decide) rfl rfl rfl
  exact ⟨c4_amended.1 cmdImage twOk, c4_amended.2.1 stwOk, h.1, h.2.2 rfl⟩

/-- trellis_wrapper.py only ever exports GLB and OBJ files. -/
theorem writtenFmts_trellisScript (c : TrellisCmd) (w : TrellisWorld) :
    ∀ f ∈ writtenFmts (trellisScript c w).events, f = FileFmt.glb ∨ f = FileFmt.obj := by
  intro f hf
  have he : (trellisScript c w).events =
      Event.setEnv "SPCONV_ALGO" "native" :: (trellisMain c w).events := rfl
  rw [he] at hf
  rcases trellisMain_cases c w with ⟨hp, h⟩ | ⟨args, hp, hbr⟩
  · rw [h] at hf
    simp [writtenFmts, dbgPre] at hf
  · rcases hbr with ⟨h1, h⟩ | ⟨h1, h2, h⟩ | ⟨h1, h2, h3, h⟩ | ⟨h1, h2, h3, h4, h⟩ |
      ⟨h1, h2, h3, h4, h5, h⟩ | ⟨h1, h2, h3, h4, h5, h6, h⟩ |
      ⟨h1, h2, h3, h4, h5, h6, h7, h⟩ | ⟨h1, h2, h3, h4, h5, h6, h7, h8, h⟩ |
      ⟨h1, h2, h3, h4, h5, h6, h7, h8, h9, h⟩ |
      ⟨h1, h2, h3, h4, h5, h6, h7, h8, h9, h10, h⟩ |
      ⟨h1, h2, h3, h4, h5, h6, h7, h8, h9, h10, h⟩ <;> rw [h] at hf <;>
      cases hcu : w.cudaAvailable <;>
      simp [writtenFmts, trellisPre5, trellisPre4, trellisPre3, trellisPre2, trellisPre1,
            dbgPre, torchInfo, hcu, trellisRunEvent, unexpectedErr, importFailMsgs, saveFail,
            osPathJoin] at hf <;>
      tauto

/-- shap_e_generate.py only ever exports an OBJ file. -/
theorem writtenFmts_shapEGenerate (pf : String → Option Rat) (pi : String → Option Int)
    (argv : List String) (w : ShapGenWorld) :
    ∀ f ∈ writtenFmts (shapEGenerate pf pi argv w).events, f = FileFmt.obj := by
  intro f hf
  unfold shapEGenerate at hf
  by_cases hl : argv.length < 5
  · rw [if_pos hl] at hf
    simp [writtenFmts] at hf
  · rw [if_neg hl] at hf
    cases hfv : pf (argv.getD 2 "") with
    | none => rw [hfv] at hf; simp [writtenFmts] at hf
    | some g =>
      rw [hfv] at hf
      cases hnv : pi (argv.getD 3 "") with
      | none =>
        rw [hnv] at hf
        simp [writtenFmts] at hf
      | some n =>
        rw [hnv] at hf
        by_cases h1 : w.loadOk = false
        · simp [h1, writtenFmts] at hf
        · by_cases h2 : w.sampleOk = false <;> by_cases h3 : w.decodeOk = false <;>
            by_cases h4 : w.outDirExists = false <;>
            simp [h1, h2, h3, h4, writtenFmts, shapELoads] at hf <;>
            tauto

/-- shap_e_test.py only ever exports PLY and OBJ files. -/
theorem writtenFmts_shapETest (w : ShapTestWorld) :
    ∀ f ∈ writtenFmts (shapETest w).events, f = FileFmt.ply ∨ f = FileFmt.obj := by
  intro f hf
  unfold shapETest at hf
  by_cases h1 : w.loadOk = false
  · simp [h1, writtenFmts] at hf
  · by_cases h2 : w.sampleOk = false <;> by_cases h3 : w.decodeOk = false <;>
      simp [h1, h2, h3, writtenFmts, shapELoads, shapETestIter, osPathJoin,
            List.range, List.range.loop] at hf <;>
      tauto

/-- shap_e_test_with_render.py only ever writes GIF, PLY and OBJ files. -/
theorem writtenFmts_shapERender (w : ShapRenderWorld) :
    ∀ f ∈ writtenFmts (shapERender w).events,
      f = FileFmt.gif ∨ f = FileFmt.ply ∨ f = FileFmt.obj := by
  intro f hf
  unfold shapERender at hf
  by_cases h1 : w.loadOk = false
  · rw [if_pos h1] at hf
    simp [writtenFmts] at hf
  · rw [if_neg h1] at hf
    by_cases h2 : w.sampleOk = false
    · rw [if_pos h2] at hf
      simp [writtenFmts_append, writtenFmts, shapELoads] at hf
    · rw [if_neg h2] at hf
      rcases writtenFmts_renderIters w _ _ f hf with hl | hr
      · simp [writtenFmts_append, writtenFmts, shapELoads] at hl
      · exact hr

/-!
Claim C5: output file formats.  The scripts produce OBJ, PLY, GLB and GIF
files; no script ever writes an MP4.  trellis_wrapper.py builds the
preview.mp4 path (and a gaussian.ply path) but never exports either file,
and its imported imageio module is never used.
-/

/-- C5 counterexample: a fully successful trellis_wrapper.py run, the only
script that even mentions an MP4 preview path, writes exactly one GLB and
one OBJ file and no MP4 (and no PLY either): the preview.mp4 path it
constructs is dead code. -/
theorem c5_counterexample :
    (trellisScript cmdImage twOk).term = Termination.normal ∧
    writtenFmts (trellisScript cmdImage twOk).events = [FileFmt.glb, FileFmt.obj] := by
  decide

/-- C5 amended: the formats ever written are, per script: GLB and OBJ for
trellis_wrapper.py, OBJ for shap_e_generate.py, PLY and OBJ for
shap_e_test.py, GIF, PLY and OBJ for shap_e_test_with_render.py — so MP4 is
never among them; and each of PLY, OBJ and GIF is actually produced on the
successful fixture runs (GLB on the successful trellis run). -/
theorem c5_amended :
    (∀ (c : TrellisCmd) (w : TrellisWorld),
       ∀ f ∈ writtenFmts (trellisScript c w).events, f = FileFmt.glb ∨ f = FileFmt.obj) ∧
    (∀ (pf : String → Option Rat) (pi : String → Option Int) (argv : List String)
       (w : ShapGenWorld),
       ∀ f ∈ writtenFmts (shapEGenerate pf pi argv w).events, f = FileFmt.obj) ∧
    (∀ w : ShapTestWorld,
       ∀ f ∈ writtenFmts (shapETest w).events, f = FileFmt.ply ∨ f = FileFmt.obj) ∧
    (∀ w : ShapRenderWorld,
       ∀ f ∈ writtenFmts (shapERender w).events,
         f = FileFmt.gif ∨ f = FileFmt.ply ∨ f = FileFmt.obj) ∧
    writtenFmts (shapETest stwOk).events = [FileFmt.ply, FileFmt.obj] ∧
    writtenFmts (shapERender srwOk).events =
      [FileFmt.gif, FileFmt.ply, FileFmt.obj, FileFmt.gif, FileFmt.ply, FileFmt.obj] := by
  refine ⟨writtenFmts_trellisScript, writtenFmts_shapEGenerate, writtenFmts_shapETest,
          writtenFmts_shapERender, by decide, by decide⟩

/-- Witness for C5 amended: membership instances at the fixture runs. -/
theorem c5_witness :
    (FileFmt.glb = FileFmt.glb ∨ FileFmt.glb = FileFmt.obj) ∧ FileFmt.obj = FileFmt.obj ∧
    (FileFmt.gif = FileFmt.gif ∨ FileFmt.gif = FileFmt.ply ∨ FileFmt.gif = FileFmt.obj) := by
  refine ⟨c5_amended.1 cmdImage twOk FileFmt.glb (by decide),
          c5_amended.2.1 pyFloatStub pyIntStub genArgv sgwOk FileFmt.obj (by decide),
          c5_amended.2.2.2.1 srwOk FileFmt.gif (by decide)⟩

/-!
Claim C8: torch.cuda.empty_cache.  The call sits after the try/except in
main(), so it runs exactly once on a fully successful run, as the very last
action after both exports; but every failure path leaves main() through
sys.exit(1) (or the argparse exit 2) and never reaches it, so it does not
execute once per run.
-/

/-- C8 counterexample: a text-mode run in the all-success world exits 1 and
torch.cuda.empty_cache never executes in it, refuting one execution per
run. -/
theorem c8_counterexample :
    (trellisScript cmdText twOk).term = Termination.exited 1 ∧
    Event.cudaEmptyCache ∉ (trellisScript cmdText twOk).events := by
  decide

/-- C8 amended: on every run of trellis_wrapper.py that completes
successfully, torch.cuda.empty_cache executes exactly once, as the last
event of the run, after every export; on every run that does not complete
successfully it never executes. -/
theorem c8_amended :
    (∀ (c : TrellisCmd) (w : TrellisWorld), (trellisScript c w).term = Termination.normal →
       ∃ l, (trellisScript c w).events = l ++ [Event.cudaEmptyCache] ∧
         Event.cudaEmptyCache ∉ l) ∧
    (∀ (c : TrellisCmd) (w : TrellisWorld), (trellisScript c w).term ≠ Termination.normal →
       Event.cudaEmptyCache ∉ (trellisScript c w).events) := by
  have key : ∀ (c : TrellisCmd) (w : TrellisWorld),
      ((trellisMain c w).term = Termination.normal →
        ∃ l, (trellisMain c w).events = l ++ [Event.cudaEmptyCache] ∧
          Event.cudaEmptyCache ∉ l) ∧
      ((trellisMain c w).term ≠ Termination.normal →
        Event.cudaEmptyCache ∉ (trellisMain c w).events) := by
    intro c w
    rcases trellisMain_cases c w with ⟨hp, h⟩ | ⟨args, hp, hbr⟩
    · rw [h]
      constructor
      · intro ht
        simp at ht
      · intro _
        simp [dbgPre]
    · rcases hbr with ⟨h1, h⟩ | ⟨h1, h2, h⟩ | ⟨h1, h2, h3, h⟩ | ⟨h1, h2, h3, h4, h⟩ |
        ⟨h1, h2, h3, h4, h5, h⟩ | ⟨h1, h2, h3, h4, h5, h6, h⟩ |
        ⟨h1, h2, h3, h4, h5, h6, h7, h⟩ | ⟨h1, h2, h3, h4, h5, h6, h7, h8, h⟩ |
        ⟨h1, h2, h3, h4, h5, h6, h7, h8, h9, h⟩ |
        ⟨h1, h2, h3, h4, h5, h6, h7, h8, h9, h10, h⟩ |
        ⟨h1, h2, h3, h4, h5, h6, h7, h8, h9, h10, h⟩ <;> rw [h] <;>
        refine ⟨fun ht => ?_, fun ht => ?_⟩ <;>
        first
        | exact Termination.noConfusion ht
        | exact absurd rfl ht
        | (cases hcu : w.cudaAvailable <;>
           simp [trellisPre5, trellisPre4, trellisPre3, trellisPre2, trellisPre1, dbgPre,
                 torchInfo, hcu, trellisRunEvent, unexpectedErr, importFailMsgs, saveFail] <;>
           done)
        | (refine ⟨trellisPre5 args w ++
              [Event.exportFile FileFmt.glb (osPathJoin args.output_dir "model.glb"),
               Event.exportFile FileFmt.obj (osPathJoin args.output_dir "model.obj")], by simp, ?_⟩
           cases hcu : w.cudaAvailable <;>
           simp [trellisPre5, trellisPre4, trellisPre3, trellisPre2, trellisPre1, dbgPre,
                 torchInfo, hcu, trellisRunEvent])
  constructor
  · intro c w ht
    obtain ⟨l, hl, hnot⟩ := (key c w).1 ht
    refine ⟨Event.setEnv "SPCONV_ALGO" "native" :: l, ?_, ?_⟩
    · show Event.setEnv "SPCONV_ALGO" "native" :: (trellisMain c w).events = _
      rw [hl]
      rfl
    · simp [hnot]
  · intro c w ht hmem
    have hm2 : Event.cudaEmptyCache ∈ (trellisMain c w).events := by
      have he : (trellisScript c w).events =
          Event.setEnv "SPCONV_ALGO" "native" :: (trellisMain c w).events := rfl
      rw [he] at hmem
      simpa using hmem
    exact (key c w).2 ht hm2

/-- Witness for C8 amended: the successful image-mode fixture run ends in
the one empty_cache event; the failing text-mode fixture run has none. -/
theorem c8_witness :
    (∃ l, (trellisScript cmdImage twOk).events = l ++ [Event.cudaEmptyCache] ∧
       Event.cudaEmptyCache ∉ l) ∧
    Event.cudaEmptyCache ∉ (trellisScript cmdText twOk).events := by
  refine ⟨c8_amended.1 cmdImage twOk (by decide), c8_amended.2 cmdText twOk (by decide)⟩

/-!
Claim C9: text mode.  With --mode text the script exits 1 without loading a
pipeline, opening the input or writing any output file — but the
not-implemented message is only printed when the TRELLIS import succeeds
(and the makedirs call succeeds): when the import fails, the run prints
the failed-import error instead (still exit 1, still nothing loaded, opened
or written).
-/

/-- C9 counterexample: a text-mode invocation in a world where the import
of TRELLIS fails.  The process exits 1, but the not-implemented error is never
printed (the import error is printed instead), refuting the claim that every
text-mode invocation prints it. -/
theorem c9_counterexample :
    Event.out "ERROR: Text-to-3D mode is not yet implemented" ∉
      (trellisScript cmdText twNoImport).events ∧
    (trellisScript cmdText twNoImport).term = Termination.exited 1 := by
  decide

/-- C9 amended: every text-mode invocation whose required flags parse and
whose output directory is creatable exits with status 1 and neither loads a
pipeline or model, nor opens the input, nor attempts or performs any file
write; the not-implemented error is printed provided the TRELLIS import
succeeds (on an import failure the import error is reported instead and the
rest still holds). -/
theorem c9_amended (c : TrellisCmd) (w : TrellisWorld) (args : TrellisArgs)
    (hp : parseTrellis c = some args) (hmode : args.mode = "text")
    (hdir : args.output_dir ≠ "") :
    (trellisScript c w).term = Termination.exited 1 ∧
    noPipelineLoadOrOutput (trellisScript c w).events = true ∧
    (w.importOk = true →
      Event.out "ERROR: Text-to-3D mode is not yet implemented" ∈ (trellisScript c w).events) := by
  have hmode2 : ¬ args.mode = "image" := by
    rw [hmode]
    decide
  have he : (trellisScript c w).events =
      Event.setEnv "SPCONV_ALGO" "native" :: (trellisMain c w).events := rfl
  by_cases h2 : w.importOk = false
  · have hm : trellisMain c w = ⟨Termination.exited 1, trellisPre1 args ++ importFailMsgs⟩ := by
      simp [trellisMain, hp, hdir, h2]
    refine ⟨?_, ?_, ?_⟩
    · show (trellisMain c w).term = _
      rw [hm]
    · rw [he, hm]
      simp [noPipelineLoadOrOutput, trellisPre1, dbgPre, importFailMsgs]
    · intro hi
      rw [hi] at h2
      exact absurd h2 (by decide)
  · have hm : trellisMain c w = ⟨Termination.exited 1,
        trellisPre2 args w ++ [Event.out "ERROR: Text-to-3D mode is not yet implemented"]⟩ := by
      simp [trellisMain, hp, hdir, h2, hmode2]
    refine ⟨?_, ?_, ?_⟩
    · show (trellisMain c w).term = _
      rw [hm]
    · rw [he, hm]
      cases hcu : w.cudaAvailable <;>
        simp [noPipelineLoadOrOutput, trellisPre2, trellisPre1, dbgPre, torchInfo, hcu]
    · intro _
      rw [he, hm]
      simp

/-- Witness for C9 amended at the text-mode fixture command line, in the
all-success world. -/
theorem c9_witness :
    (trellisScript cmdText twOk).term = Termination.exited 1 ∧
    noPipelineLoadOrOutput (trellisScript cmdText twOk).events = true ∧
    Event.out "ERROR: Text-to-3D mode is not yet implemented" ∈
      (trellisScript cmdText twOk).events := by
  have h := c9_amended cmdText twOk ⟨"text", "a red chair", "outdir", 0, 12, 15 / 2, 12, 3⟩
    rfl rfl (by decide)
  exact ⟨h.1, h.2.1, h.2.2 rfl⟩
